import Mathlib

/-!
Verification development for the fpl_assistant repository.

Shallow embedding of the analytical core (squad builder, fixture analyzer,
ownership weights, analysis engine, central cache) into Lean 4.  Python
floats are modelled as exact rationals (`ℚ`), Python ints as `Int`/`Nat`,
dictionaries as association lists or functions, and the process-wide wall
clock / seeded PRNG as explicit parameters (`now : ℚ`, `rng : Nat → ℚ`).
Python's `round(x, n)` rounds half-to-even; `roundToDec` rounds
half-away-from-zero upward.  The two differ only on exact decimal ties,
which no claim below depends on.
-/

/-- Model of Python `round(q, n)`: scale by `10^n`, round to nearest
integer, scale back. -/
def roundToDec (n : Nat) (q : ℚ) : ℚ := (round (q * (10 ^ n : ℚ)) : ℚ) / (10 ^ n : ℚ)

/-- `standard_player_schema.StandardPlayer` (a Python dataclass).  Float
fields become `ℚ`, int fields `Int`. -/
structure StandardPlayer where
  player_id : Int
  name : String
  position : String
  team_name : String
  price : ℚ
  total_points : Int
  momentum_score : ℚ
  minutes : Int
  form : ℚ
  selected_by_percent : ℚ
  goals_scored : Int := 0
  assists : Int := 0
  clean_sheets : Int := 0
  chance_of_playing : Int := 100
deriving DecidableEq, Repr

/-- `standard_player_schema.GLOBAL_SEED`. -/
def GLOBAL_SEED : Nat := 42

/-- `central_cache.CentralCache`: a key/value store mapping each key to an
insertion timestamp and a value, plus a timeout.  The Python `dict` is
modelled as a function `String → Option (ℚ × α)`; `time.time()` becomes an
explicit `now` argument on `get`/`set`. -/
structure CentralCache (α : Type) where
  store : String → Option (ℚ × α)
  timeout : ℚ

/-- `CentralCache.get`: return the entry while `now - timestamp < timeout`;
an expired entry is deleted from the store and the lookup is a miss. -/
def CentralCache.get {α : Type} (c : CentralCache α) (key : String) (now : ℚ) :
    Option α × CentralCache α :=
  match c.store key with
  | some (timestamp, data) =>
    if now - timestamp < c.timeout then (some data, c)
    else (none, { c with store := fun k => if k = key then none else c.store k })
  | none => (none, c)

/-- `CentralCache.set`: record the value under the key with the current time. -/
def CentralCache.set {α : Type} (c : CentralCache α) (key : String) (now : ℚ) (value : α) :
    CentralCache α :=
  { c with store := fun k => if k = key then some (now, value) else c.store k }

/-! ## UnifiedSquadBuilder -/

/-- Eligibility filter used by `UnifiedSquadBuilder._group_by_position`:
`chance_of_playing is not None and chance_of_playing >= 75 and price > 0`.
(`chance_of_playing` is never `None` for a constructed `StandardPlayer`.) -/
def eligible (p : StandardPlayer) : Bool :=
  decide (75 ≤ p.chance_of_playing) && decide (0 < p.price)

/-- The four position keys of the `groups` dict in `_group_by_position`. -/
def squad_positions : List String := ["GK", "DEF", "MID", "FWD"]

/-- `UnifiedSquadBuilder._group_by_position`, one position group:
players whose `position` equals the key and which pass the eligibility
filter, in input order. -/
def group_by_position (players : List StandardPlayer) (pos : String) : List StandardPlayer :=
  players.filter (fun p => decide (p.position = pos) && eligible p)

/-- Ranking key of `UnifiedSquadBuilder._sort_players`:
`(momentum_score or 0) / max(price, 4.0)`. -/
def sort_key (p : StandardPlayer) : ℚ := p.momentum_score / max p.price 4

/-- `UnifiedSquadBuilder._sort_players`: Python's stable `sorted(...,
reverse=True)` on the value key, modelled as a stable insertion sort by
descending key (no arithmetic in the key can raise, so the `except`
fallback branch is dead). -/
def sort_players (players : List StandardPlayer) : List StandardPlayer :=
  players.insertionSort (fun a b => sort_key b ≤ sort_key a)

/-- Increment of the `used_teams` dict: `used_teams[t] = used_teams.get(t, 0) + 1`. -/
def bump (used : String → Nat) (team : String) : String → Nat :=
  fun t => if t = team then used team + 1 else used t

/-- `sum(p.price for p in players)` (also `sum(getattr(p, 'price', 4.0) ...)`;
every `StandardPlayer` has a `price`). -/
def squad_cost (players : List StandardPlayer) : ℚ :=
  (players.map StandardPlayer.price).sum

/-- First `for` loop of `UnifiedSquadBuilder._select_players`: walk the
ranked candidates, stop once `count` players are selected, skip a player
whose team already has 3 members or whose price would exceed the remaining
budget, otherwise append and bump the team counter. -/
def select_greedy (count : Nat) (budget : ℚ) :
    List StandardPlayer → List StandardPlayer → (String → Nat) →
    List StandardPlayer × (String → Nat)
  | [], selected, used => (selected, used)
  | p :: ps, selected, used =>
    if count ≤ selected.length then (selected, used)
    else if 3 ≤ used p.team_name then select_greedy count budget ps selected used
    else if budget < squad_cost selected + p.price then select_greedy count budget ps selected used
    else select_greedy count budget ps (selected ++ [p]) (bump used p.team_name)

/-- Python `min(l, key=price)`: the first price-minimal element. -/
def min_by_price : List StandardPlayer → Option StandardPlayer
  | [] => none
  | p :: ps =>
    match min_by_price ps with
    | none => some p
    | some q => if p.price ≤ q.price then some p else some q

/-- `while` loop of `UnifiedSquadBuilder._select_players` (the repair
pass): while a slot is unfilled, take the cheapest not-yet-selected
candidate; add it if it fits the remaining budget (note: the team cap is
NOT checked here), else stop.  Each iteration that continues appends one
player, so `count` iterations of fuel make the recursion exact. -/
def select_repair (players : List StandardPlayer) (count : Nat) (budget : ℚ) :
    Nat → List StandardPlayer → (String → Nat) →
    List StandardPlayer × (String → Nat)
  | 0, selected, used => (selected, used)
  | fuel + 1, selected, used =>
    if selected.length < count ∧ players ≠ [] then
      match min_by_price (players.filter (fun p => decide (p ∉ selected))) with
      | none => (selected, used)
      | some cheapest =>
        if squad_cost selected + cheapest.price ≤ budget then
          select_repair players count budget fuel
            (selected ++ [cheapest]) (bump used cheapest.team_name)
        else (selected, used)
    else (selected, used)

/-- `UnifiedSquadBuilder._select_players`: greedy pass then repair pass.
The `used_teams` dict is threaded through (shared across all calls of one
`build_squad` run). -/
def select_players (players : List StandardPlayer) (count : Nat) (budget : ℚ)
    (used : String → Nat) : List StandardPlayer × (String → Nat) :=
  let g := select_greedy count budget players [] used
  select_repair players count budget count g.1 g.2

/-- Captain ranking key: `momentum_score + total_points / 200.0`. -/
def captain_key (p : StandardPlayer) : ℚ :=
  p.momentum_score + (p.total_points : ℚ) / 200

/-- Python `max(l, key=k)`: the first key-maximal element. -/
def max_by_key (key : StandardPlayer → ℚ) : List StandardPlayer → Option StandardPlayer
  | [] => none
  | p :: ps =>
    match max_by_key key ps with
    | none => some p
    | some q => if key p < key q then some q else some p

/-- `UnifiedSquadBuilder._select_captain`: best attacking (MID/FWD) player
by `captain_key`, falling back to best momentum over all players; `none`
on an empty list.  (No arithmetic here can raise, so the `except` branch
is dead.) -/
def select_captain (players : List StandardPlayer) : Option StandardPlayer :=
  let attacking := players.filter (fun p => decide (p.position = "MID" ∨ p.position = "FWD"))
  if attacking ≠ [] then max_by_key captain_key attacking
  else max_by_key (fun p => p.momentum_score) players

/-- Number of squad members with the given position. -/
def count_position (squad : List StandardPlayer) (pos : String) : Nat :=
  (squad.filter (fun p => decide (p.position = pos))).length

/-- Number of squad members from the given team. -/
def count_team (squad : List StandardPlayer) (team : String) : Nat :=
  (squad.filter (fun p => decide (p.team_name = team))).length

/-- `UnifiedSquadBuilder._validate_squad`: 15 players, exact position
counts GK 2 / DEF 5 / MID 5 / FWD 3, and every team contributing at most
3.  (The Python version indexes a 4-key dict by each player's position;
squads produced by `build_squad` only contain those four positions.) -/
def validate_squad (squad : List StandardPlayer) : Bool :=
  decide (squad.length = 15) &&
  decide (count_position squad "GK" = 2) &&
  decide (count_position squad "DEF" = 5) &&
  decide (count_position squad "MID" = 5) &&
  decide (count_position squad "FWD" = 3) &&
  squad.all (fun p => decide (count_team squad p.team_name ≤ 3))

/-- `self.formation` (insertion order of the Python dict literal). -/
def formation : List (String × Nat) := [("GK", 1), ("DEF", 4), ("MID", 4), ("FWD", 2)]

/-- `self.bench_formation`. -/
def bench_formation : List (String × Nat) := [("GK", 1), ("DEF", 1), ("MID", 1), ("FWD", 1)]

/-- One `for position, count in formation.items()` loop of `build_squad`:
`prep pos` supplies the candidate list for a position (sorted group for
the starting XI, unsorted group minus the starting XI for the bench);
`total_cost` and `used` accumulate across iterations, and each call passes
the remaining budget `budget - total_cost`. -/
def fill_loop (budget : ℚ) (prep : String → List StandardPlayer) :
    List (String × Nat) → ℚ → (String → Nat) → List StandardPlayer →
    List StandardPlayer × ℚ × (String → Nat)
  | [], total_cost, used, acc => (acc, total_cost, used)
  | (pos, count) :: rest, total_cost, used, acc =>
    let step := select_players (prep pos) count (budget - total_cost) used
    fill_loop budget prep rest (total_cost + squad_cost step.1) step.2 (acc ++ step.1)

/-- The dict returned by `UnifiedSquadBuilder.build_squad`. -/
structure SquadResult where
  starting_xi : List StandardPlayer
  bench : List StandardPlayer
  captain : Option StandardPlayer
  total_cost : ℚ
  formation : String
  valid : Bool
deriving DecidableEq, Repr

/-- Core of `UnifiedSquadBuilder.build_squad` (the computation performed on
a cache miss): fill the starting XI position by position from the sorted
eligible groups, then the bench from the unsorted remainder, sharing the
budget and the team-usage dict across both loops. -/
def build_squad (budget : ℚ) (all_players : List StandardPlayer) : SquadResult :=
  let groups := group_by_position all_players
  let xiStep := fill_loop budget (fun pos => sort_players (groups pos)) formation 0 (fun _ => 0) []
  let xi := xiStep.1
  let benchStep := fill_loop budget
    (fun pos => (groups pos).filter (fun p => decide (p ∉ xi)))
    bench_formation xiStep.2.1 xiStep.2.2 []
  { starting_xi := xi
    bench := benchStep.1
    captain := select_captain xi
    total_cost := roundToDec 1 benchStep.2.1
    formation := "4-4-2"
    valid := validate_squad (xi ++ benchStep.1) }

/-- The cache key of `build_squad`: `f"squad_{self.budget}_{len(all_players)}"`.
(`toString` renders the rational budget differently from Python's float
repr, but the key is still a function of exactly the budget and the list
length, which is all that matters.) -/
def squad_cache_key (budget : ℚ) (n : Nat) : String :=
  "squad_" ++ toString budget ++ "_" ++ toString n

/-- `UnifiedSquadBuilder.build_squad` including its cache interaction: a
hit returns the cached squad (the result dict is a non-empty dict, hence
always truthy in `if cached:`); a miss computes and stores the result. -/
def build_squad_cached (budget : ℚ) (c : CentralCache SquadResult) (now : ℚ)
    (all_players : List StandardPlayer) : SquadResult × CentralCache SquadResult :=
  let key := squad_cache_key budget all_players.length
  let g := c.get key now
  match g.1 with
  | some cached => (cached, g.2)
  | none =>
    let result := build_squad budget all_players
    (result, g.2.set key now result)

/-! ## FixtureAnalyzer -/

/-- One row of the cleaned fixtures dataframe (columns used by the
analysis; difficulties are the 1-5 integers of the FPL data). -/
structure Fixture where
  team_h : Int
  team_a : Int
  event : Int
  team_h_difficulty : Int
  team_a_difficulty : Int
deriving DecidableEq, Repr

/-- One entry of `teams_lookup` (only the `name` field is read by the
functions modelled here). -/
structure TeamEntry where
  team_id : Int
  name : String
deriving DecidableEq, Repr

/-- The state of a `FixtureAnalyzer` after `__init__`: the cleaned fixture
rows (sorted by `event`), the teams lookup built from the teams file (a
dict, so ids are distinct), and the detected current gameweek. -/
structure AnalyzerState where
  fixtures : List Fixture
  teams_lookup : List TeamEntry
  current_gameweek : Int
deriving DecidableEq, Repr

/-- `self.teams_lookup.get(team_id, {}).get('name', 'Unknown')`. -/
def lookup_team_name (s : AnalyzerState) (team_id : Int) : String :=
  match s.teams_lookup.find? (fun e => e.team_id == team_id) with
  | some e => e.name
  | none => "Unknown"

/-- Fixture-difficulty normalization of
`FixtureAnalyzer._analyze_team_fixtures_optimized`:
`max(0, min(1, (6 - difficulty) / 4))`. -/
def normalized_difficulty (d : Int) : ℚ :=
  max 0 (min 1 ((6 - (d : ℚ)) / 4))

/-- Window predicate of `analyze_team_fixtures` /
`batch_analyze_all_teams`:
`current_gameweek <= event < current_gameweek + gameweeks_ahead`. -/
def in_window (s : AnalyzerState) (gameweeks_ahead : Int) (f : Fixture) : Bool :=
  decide (s.current_gameweek ≤ f.event) &&
  decide (f.event < s.current_gameweek + gameweeks_ahead)

/-- `(team_h == team_id) | (team_a == team_id)`. -/
def involves_team (team_id : Int) (f : Fixture) : Bool :=
  f.team_h == team_id || f.team_a == team_id

/-- Per-fixture record appended to `fixtures_analysis`. -/
structure FixtureInfo where
  gameweek : Int
  opponent_id : Int
  opponent_name : String
  is_home : Bool
  difficulty_raw : Int
  difficulty_normalized : ℚ
  venue : String
deriving DecidableEq, Repr

/-- Result dict of the fixture analysis. -/
structure FixtureAnalysis where
  team_id : Int
  team_name : String
  gameweeks_analyzed : Int
  fixtures_count : Nat
  upcoming_fixtures : List FixtureInfo
  avg_difficulty : ℚ
  home_games_ratio : ℚ
  double_gameweek_count : Nat
  double_gameweek_bonus : ℚ
  fixture_difficulty_score : ℚ
deriving DecidableEq, Repr

/-- The side-specific raw difficulty of one fixture for a team:
`team_h_difficulty` if the team is at home, else `team_a_difficulty`. -/
def side_difficulty (team_id : Int) (f : Fixture) : Int :=
  if f.team_h == team_id then f.team_h_difficulty else f.team_a_difficulty

/-- The `fixture_info` dict built per fixture inside
`_analyze_team_fixtures_optimized`. -/
def fixture_info (s : AnalyzerState) (team_id : Int) (f : Fixture) : FixtureInfo :=
  let is_home := f.team_h == team_id
  let opponent_id := if is_home then f.team_a else f.team_h
  let difficulty := side_difficulty team_id f
  { gameweek := f.event
    opponent_id := opponent_id
    opponent_name := lookup_team_name s opponent_id
    is_home := is_home
    difficulty_raw := difficulty
    difficulty_normalized := roundToDec 3 (normalized_difficulty difficulty)
    venue := if is_home then "H" else "A" }

/-- `FixtureAnalyzer._analyze_team_fixtures_optimized`: per-fixture infos,
average normalized difficulty, home-games ratio, and the double-gameweek
count (`value_counts`: distinct events occurring more than once) and its
bonus `min(0.3, count * 0.15)`. -/
def analyze_team_fixtures_optimized (s : AnalyzerState) (team_id : Int)
    (team_fixtures : List Fixture) (gameweeks_ahead : Int) : FixtureAnalysis :=
  let events := team_fixtures.map Fixture.event
  let double_gameweeks := (events.dedup.filter (fun e => 1 < events.count e)).length
  let infos := team_fixtures.map (fixture_info s team_id)
  let total_difficulty :=
    (team_fixtures.map (fun f => normalized_difficulty (side_difficulty team_id f))).sum
  let home_games := (team_fixtures.filter (fun f => f.team_h == team_id)).length
  let num_fixtures := infos.length
  let avg_difficulty := total_difficulty / (max 1 num_fixtures : ℚ)
  let home_ratio := (home_games : ℚ) / (max 1 num_fixtures : ℚ)
  let dgw_bonus := min (3/10 : ℚ) ((double_gameweeks : ℚ) * (15/100))
  { team_id := team_id
    team_name := lookup_team_name s team_id
    gameweeks_analyzed := gameweeks_ahead
    fixtures_count := num_fixtures
    upcoming_fixtures := infos
    avg_difficulty := roundToDec 3 avg_difficulty
    home_games_ratio := roundToDec 3 home_ratio
    double_gameweek_count := double_gameweeks
    double_gameweek_bonus := roundToDec 3 dgw_bonus
    fixture_difficulty_score := roundToDec 3 avg_difficulty }

/-- `FixtureAnalyzer._empty_fixture_result`: the neutral result returned
when no fixtures are found. -/
def empty_fixture_result (s : AnalyzerState) (team_id : Int) : FixtureAnalysis :=
  { team_id := team_id
    team_name := lookup_team_name s team_id
    gameweeks_analyzed := 0
    fixtures_count := 0
    upcoming_fixtures := []
    avg_difficulty := 1/2
    home_games_ratio := 1/2
    double_gameweek_count := 0
    double_gameweek_bonus := 0
    fixture_difficulty_score := 1/2 }

/-- `FixtureAnalyzer.analyze_team_fixtures` (computation path; the smart
cache is read-through and write-through, so the cached value equals this
pure result for a fixed state). -/
def analyze_team_fixtures (s : AnalyzerState) (team_id : Int)
    (gameweeks_ahead : Int) : FixtureAnalysis :=
  if s.fixtures.isEmpty then empty_fixture_result s team_id
  else
    let team_fixtures :=
      s.fixtures.filter (fun f => in_window s gameweeks_ahead f && involves_team team_id f)
    if team_fixtures.isEmpty then empty_fixture_result s team_id
    else analyze_team_fixtures_optimized s team_id team_fixtures gameweeks_ahead

/-- `FixtureAnalyzer.batch_analyze_all_teams` (computation path): empty
dict when there is no fixture data, no teams lookup, or no fixture in the
window; otherwise filter the window once and analyze every known team
against the shared filtered set.  The Python dict keyed by team id is
modelled as an association list in `teams_lookup` order. -/
def batch_analyze_all_teams (s : AnalyzerState) (gameweeks_ahead : Int) :
    List (Int × FixtureAnalysis) :=
  if s.fixtures.isEmpty || s.teams_lookup.isEmpty then []
  else
    let relevant := s.fixtures.filter (in_window s gameweeks_ahead)
    if relevant.isEmpty then []
    else
      s.teams_lookup.map (fun e =>
        let team_fixtures := relevant.filter (involves_team e.team_id)
        (e.team_id,
          if !team_fixtures.isEmpty then
            analyze_team_fixtures_optimized s e.team_id team_fixtures gameweeks_ahead
          else empty_fixture_result s e.team_id))

/-! ## OwnershipWeights -/

/-- The dict returned by `OwnershipWeights.calculate_ownership_adjustment`. -/
structure OwnershipAdjustment where
  ownership_bracket : String
  base_modifier : ℚ
  position_multiplier : ℚ
  gameweek_multiplier : ℚ
  final_modifier : ℚ
  risk_level : String
  recommendation : String
deriving DecidableEq, Repr

/-- `OwnershipWeights._get_ownership_bracket`. -/
def get_ownership_bracket (ownership_pct : ℚ) : String :=
  if 50 ≤ ownership_pct then "template"
  else if 30 ≤ ownership_pct then "popular"
  else if 15 ≤ ownership_pct then "medium"
  else if 5 ≤ ownership_pct then "differential"
  else "contrarian"

/-- `self.ownership_brackets[bracket]['modifier']`. -/
def bracket_modifier (bracket : String) : ℚ :=
  if bracket = "template" then -(12/100)
  else if bracket = "popular" then -(6/100)
  else if bracket = "medium" then 0
  else if bracket = "differential" then 8/100
  else 15/100

/-- `self.ownership_brackets[bracket]['risk']`. -/
def bracket_risk (bracket : String) : String :=
  if bracket = "template" then "high"
  else if bracket = "popular" then "medium"
  else if bracket = "medium" then "low"
  else if bracket = "differential" then "medium"
  else "high"

/-- `self.position_ownership_impact.get(position, 1.0)`. -/
def position_ownership_impact (position : String) : ℚ :=
  if position = "GK" then 6/10
  else if position = "DEF" then 8/10
  else if position = "MID" then 1
  else if position = "FWD" then 12/10
  else 1

/-- `OwnershipWeights._get_gameweek_multiplier`. -/
def get_gameweek_multiplier (gameweek : Int) : ℚ :=
  if gameweek ≤ 6 then 8/10
  else if gameweek ≤ 25 then 1
  else if gameweek ≤ 35 then 13/10
  else 15/10

/-- Rendering of `{ownership_pct:.1f}` inside the recommendation strings
(cosmetic; the rational is rendered by `toString` after rounding to one
decimal, which differs textually from Python float formatting). -/
def format_pct (q : ℚ) : String := toString (roundToDec 1 q)

/-- `OwnershipWeights._get_ownership_recommendation`. -/
def get_ownership_recommendation (bracket : String) (ownership_pct : ℚ) : String :=
  if bracket = "template" then
    "Template pick (" ++ format_pct ownership_pct ++ "%) - High safety, low differential value"
  else if bracket = "popular" then
    "Popular pick (" ++ format_pct ownership_pct ++ "%) - Moderate safety, limited upside"
  else if bracket = "medium" then
    "Balanced pick (" ++ format_pct ownership_pct ++ "%) - Good middle ground"
  else if bracket = "differential" then
    "Differential (" ++ format_pct ownership_pct ++ "%) - Higher risk, potential for gains"
  else
    "Contrarian pick (" ++ format_pct ownership_pct ++ "%) - High risk, high reward potential"

/-- `OwnershipWeights.calculate_ownership_adjustment`: the gameweek
multiplier is applied only for the differential/contrarian brackets; the
final modifier is capped to `[-0.2, 0.25]`. -/
def calculate_ownership_adjustment (ownership_pct : ℚ) (position : String)
    (gameweek : Int) : OwnershipAdjustment :=
  let bracket := get_ownership_bracket ownership_pct
  let base_modifier := bracket_modifier bracket
  let position_multiplier := position_ownership_impact position
  let gameweek_multiplier := get_gameweek_multiplier gameweek
  let raw :=
    if bracket = "differential" ∨ bracket = "contrarian" then
      base_modifier * position_multiplier * gameweek_multiplier
    else
      base_modifier * position_multiplier
  { ownership_bracket := bracket
    base_modifier := base_modifier
    position_multiplier := position_multiplier
    gameweek_multiplier := gameweek_multiplier
    final_modifier := max (-(2/10)) (min (25/100) raw)
    risk_level := bracket_risk bracket
    recommendation := get_ownership_recommendation bracket ownership_pct }

/-! ## UnifiedAnalysisEngine -/

/-- `UnifiedAnalysisEngine._get_ownership_category` (the engine's own
5-bucket table, distinct from `OwnershipWeights`). -/
def get_ownership_category (ownership_pct : ℚ) : String :=
  if ownership_pct < 5 then "very_low"
  else if ownership_pct < 15 then "low"
  else if ownership_pct < 30 then "medium"
  else if ownership_pct < 50 then "high"
  else "very_high"

/-- `self.ownership_modifiers.get(category, 0.0)`. -/
def ownership_modifier_of (category : String) : ℚ :=
  if category = "very_low" then 15/100
  else if category = "low" then 8/100
  else if category = "medium" then 0
  else if category = "high" then -(5/100)
  else if category = "very_high" then -(1/10)
  else 0

/-- `self.randomizer_thresholds` in dict insertion order. -/
def randomizer_thresholds : List (ℚ × ℚ) :=
  [(9/10, 45/100), (8/10, 3/10), (7/10, 18/100), (6/10, 12/100), (0, 6/100)]

/-- `UnifiedAnalysisEngine._get_momentum_level`. -/
def get_momentum_level (score : ℚ) : String :=
  if 9/10 ≤ score then "exceptional"
  else if 8/10 ≤ score then "high"
  else if 7/10 ≤ score then "medium"
  else if 6/10 ≤ score then "low"
  else "very_low"

/-- `UnifiedAnalysisEngine._apply_randomizer`.  The process-wide seeded
Mersenne Twister is modelled as the deterministic stream `rng : Nat → ℚ`
(the sequence of `random.random()` outputs fixed by `GLOBAL_SEED`) plus
the index of the next draw; a draw is consumed only when some threshold is
met (the `0.0` threshold catches every non-negative momentum). -/
def apply_randomizer (rng : Nat → ℚ) (idx : Nat) (p : StandardPlayer) :
    Bool × String × Nat :=
  let category := get_ownership_category p.selected_by_percent
  let omod := ownership_modifier_of category
  match randomizer_thresholds.find? (fun th => decide (th.1 ≤ p.momentum_score)) with
  | some th =>
    let adjusted := max (2/100) (min (6/10) (th.2 + omod))
    (decide (rng idx < adjusted), get_momentum_level p.momentum_score, idx + 1)
  | none => (false, "very_low", idx)

/-- `UnifiedAnalysisEngine._calculate_multi_objective_score` (the `try`
body never raises: the price is floored at 4 before dividing). -/
def calculate_multi_objective_score (p : StandardPlayer) : ℚ :=
  let momentum_score := p.momentum_score
  let price := max p.price 4
  let value_score := min 1 (momentum_score / (price / 10))
  let form_score := if 0 < p.form then min 1 (p.form / 10) else 1/2
  let fixture_score : ℚ := 7/10
  roundToDec 4 (momentum_score * (4/10) + value_score * (25/100) +
    fixture_score * (2/10) + form_score * (15/100))

/-- `UnifiedAnalysisEngine._calculate_captain_score`. -/
def calculate_captain_score (p : StandardPlayer) : ℚ :=
  if p.position = "MID" ∨ p.position = "FWD" then
    let base := p.momentum_score * (4/10) +
      min ((p.total_points : ℚ) / 200) 1 * (3/10) + min (p.form / 10) 1 * (2/10)
    let base := if 10 ≤ p.price then base + 5/100 else base
    let base := if 6 ≤ p.form then base + 1/10 else base
    min 1 (max 0 base)
  else 0

/-- `UnifiedAnalysisEngine._calculate_transfer_priority`. -/
def calculate_transfer_priority (p : StandardPlayer) : ℚ :=
  let momentum := p.momentum_score
  let price := max p.price 4
  let value_factor := momentum / (price / 8)
  let form_bonus := min (1/10) (p.form / 50)
  let ownership_bonus : ℚ :=
    if p.selected_by_percent < 10 then 15/100
    else if p.selected_by_percent < 20 then 8/100
    else 0
  min 1 (max 0 (momentum * (5/10) + value_factor * (3/10) + form_bonus + ownership_bonus))

/-- `UnifiedAnalysisEngine._calculate_value_rating`. -/
def calculate_value_rating (p : StandardPlayer) : ℚ :=
  if p.price ≤ 0 then 0
  else
    let ppm := (p.total_points : ℚ) / p.price
    let mpm := p.momentum_score / (p.price / 10)
    min 1 (max 0 (ppm / 30 * (6/10) + mpm * (4/10)))

/-- `UnifiedAnalysisEngine._get_recommendation`. -/
def get_recommendation (p : StandardPlayer) (selected : Bool) : String :=
  let momentum := p.momentum_score
  let ownership := p.selected_by_percent
  if !selected then
    if 7/10 < momentum then "MONITOR - פוטנציאל גבוה"
    else if 5/10 < momentum then "HOLD - אופציה סבירה"
    else "AVOID - מדדים חלשים"
  else if 9/10 ≤ momentum then
    (if ownership < 15 then "STRONG BUY - Differential מעולה"
     else "STRONG BUY - בחירה מעולה")
  else if 8/10 ≤ momentum then "BUY - בחירה טובה"
  else if 7/10 ≤ momentum then "CONSIDER - שקול"
  else "MONITOR - עקוב"

/-- The dict returned by `UnifiedAnalysisEngine.analyze_player`. -/
structure AnalysisResult where
  player : StandardPlayer
  momentum_level : String
  selected : Bool
  recommendation : String
  captain_score : ℚ
  transfer_priority : ℚ
  multi_objective_score : ℚ
  ownership_category : String
  value_rating : ℚ
deriving DecidableEq, Repr

/-- Mutable context of a `UnifiedAnalysisEngine` run: the shared central
cache and the position in the global random stream. -/
structure EngineState where
  cache : CentralCache AnalysisResult
  rng_index : Nat

/-- `f"player_analysis_{player.player_id}"`. -/
def player_analysis_key (p : StandardPlayer) : String :=
  "player_analysis_" ++ toString p.player_id

/-- The result dict assembled by `analyze_player` on a cache miss. -/
def compute_analysis (p : StandardPlayer) (selected : Bool) (level : String) :
    AnalysisResult :=
  { player := p
    momentum_level := level
    selected := selected
    recommendation := get_recommendation p selected
    captain_score := calculate_captain_score p
    transfer_priority := calculate_transfer_priority p
    multi_objective_score := calculate_multi_objective_score p
    ownership_category := get_ownership_category p.selected_by_percent
    value_rating := calculate_value_rating p }

/-- `UnifiedAnalysisEngine.analyze_player`: return the cached analysis if
present and fresh (an analysis dict is non-empty, hence truthy), otherwise
draw the randomizer, assemble the result and cache it. -/
def analyze_player (rng : Nat → ℚ) (s : EngineState) (now : ℚ)
    (p : StandardPlayer) : AnalysisResult × EngineState :=
  let g := s.cache.get (player_analysis_key p) now
  match g.1 with
  | some cached => (cached, { s with cache := g.2 })
  | none =>
    let r := apply_randomizer rng s.rng_index p
    let result := compute_analysis p r.1 r.2.1
    (result, { cache := g.2.set (player_analysis_key p) now result, rng_index := r.2.2 })

/-- The `for player in budget_players: analysis = self.analyze_player(player)`
loop of `get_value_picks`: analyze every player in order, keeping only the
binding of `analysis` left by the final iteration (`none` when the list is
empty, in which case the Python variable stays unbound). -/
def analyze_loop (rng : Nat → ℚ) (now : ℚ) :
    List StandardPlayer → EngineState → Option AnalysisResult × EngineState
  | [], s => (none, s)
  | p :: ps, s =>
    let a := analyze_player rng s now p
    let rest := analyze_loop rng now ps a.2
    (some (rest.1.getD a.1), rest.2)

/-- `UnifiedAnalysisEngine.get_value_picks`.  The threshold test
`if analysis['value_rating'] >= 0.7` sits at the indentation level of the
`for` loop, so it runs once, after the loop, on the last bound `analysis`;
with no affordable player the Python code raises `NameError` (modelled as
`none`).  The `analysis['recommendation'] = analysis.get('recommendation',
'Value Pick')` line is a value-level no-op: the key is always present. -/
def get_value_picks (rng : Nat → ℚ) (s : EngineState) (now : ℚ)
    (players : List StandardPlayer) (max_price : ℚ) :
    Option (List AnalysisResult) × EngineState :=
  let budget_players := players.filter (fun p => decide (p.price ≤ max_price))
  let loop := analyze_loop rng now budget_players s
  match loop.1 with
  | none => (none, loop.2)
  | some analysis =>
    let value_picks := if 7/10 ≤ analysis.value_rating then [analysis] else []
    (some ((value_picks.insertionSort (fun a b => b.value_rating ≤ a.value_rating)).take 10),
      loop.2)

/-! ## Helper lemmas -/

lemma isEmpty_false_of_ne_nil {α : Type} {l : List α} (h : l ≠ []) : l.isEmpty = false := by
  cases l with
  | nil => exact absurd rfl h
  | cons a l => rfl

/-! ## Claim C7: cache freshness and eviction -/

/-- C7: an entry set at time `t` is returned by `get` while
`now - t < ttl`; once `now - t ≥ ttl` the lookup is a miss and the stale
entry is removed from the store. -/
theorem claim_C7 {α : Type} (c : CentralCache α) (key : String) (t now : ℚ) (v : α) :
    (((c.set key t v).get key now).1 = if now - t < c.timeout then some v else none) ∧
    (((c.set key t v).get key now).2.store key =
      if now - t < c.timeout then some (t, v) else none) := by
  by_cases h : now - t < c.timeout
  · simp [CentralCache.set, CentralCache.get, h]
  · simp [CentralCache.set, CentralCache.get, h]

/-! ## Claim C4: difficulty normalization -/

/-- C4: the per-fixture difficulty normalization equals `(6 - d)/4`
clamped to `[0, 1]`; it is monotonically decreasing in the raw
difficulty, with raw 1 mapping to 1.0 and raw 5 mapping to 0.25. -/
theorem claim_C4 :
    (∀ d : Int, normalized_difficulty d = max 0 (min 1 ((6 - (d : ℚ)) / 4))) ∧
    (∀ d1 d2 : Int, d1 ≤ d2 → normalized_difficulty d2 ≤ normalized_difficulty d1) ∧
    normalized_difficulty 1 = 1 ∧ normalized_difficulty 5 = 1/4 := by
  refine ⟨fun d => rfl, fun d1 d2 h => ?_, by norm_num [normalized_difficulty],
    by norm_num [normalized_difficulty]⟩
  unfold normalized_difficulty
  have hc : ((d1 : ℚ)) ≤ (d2 : ℚ) := by exact_mod_cast h
  have hd : ((6 - (d2 : ℚ)) / 4) ≤ ((6 - (d1 : ℚ)) / 4) := by linarith
  exact max_le_max le_rfl (min_le_min le_rfl hd)

/-- Witness for C4: instantiates the monotonicity conjunct at raw
difficulties 2 ≤ 3. -/
theorem claim_C4_witness : normalized_difficulty 3 ≤ normalized_difficulty 2 :=
  claim_C4.2.1 2 3 (by decide)

/-! ## Claim C3: neutral result on an empty fixture window -/

/-- C3: whenever a team has no fixtures in the requested window (in
particular when the fixture set itself is empty), `analyze_team_fixtures`
returns the neutral result: average difficulty 0.5, home-games ratio 0.5,
double-gameweek bonus 0.0 and fixtures count 0 (and, being a total
function, it never raises). -/
theorem claim_C3 (s : AnalyzerState) (team_id gameweeks_ahead : Int)
    (h : s.fixtures.filter
      (fun f => in_window s gameweeks_ahead f && involves_team team_id f) = []) :
    (analyze_team_fixtures s team_id gameweeks_ahead).avg_difficulty = 1/2 ∧
    (analyze_team_fixtures s team_id gameweeks_ahead).home_games_ratio = 1/2 ∧
    (analyze_team_fixtures s team_id gameweeks_ahead).double_gameweek_bonus = 0 ∧
    (analyze_team_fixtures s team_id gameweeks_ahead).fixtures_count = 0 := by
  unfold analyze_team_fixtures
  by_cases he : s.fixtures.isEmpty
  · simp [he, empty_fixture_result]
  · simp [he, h, empty_fixture_result]

/-- A state with one fixture that lies outside the requested window. -/
def analyzerW3 : AnalyzerState :=
  { fixtures := [⟨1, 2, 9, 3, 3⟩], teams_lookup := [⟨1, "A"⟩, ⟨2, "B"⟩], current_gameweek := 1 }

/-- Witness for C3: team 5 has no fixture in the window `[1, 4)` of
`analyzerW3`. -/
theorem claim_C3_witness :
    (analyze_team_fixtures analyzerW3 5 3).avg_difficulty = 1/2 ∧
    (analyze_team_fixtures analyzerW3 5 3).home_games_ratio = 1/2 ∧
    (analyze_team_fixtures analyzerW3 5 3).double_gameweek_bonus = 0 ∧
    (analyze_team_fixtures analyzerW3 5 3).fixtures_count = 0 :=
  claim_C3 analyzerW3 5 3 (by decide)

/-! ## Claim C6: season phase does not affect modifiers for ownership ≥ 15 -/

/-- C6: for every ownership percentage of at least 15 (the template,
popular and medium brackets) and every position, the final modifier of
`calculate_ownership_adjustment` is the same for all gameweeks: the
season-phase multiplier only touches the differential/contrarian
brackets. -/
theorem claim_C6 (ownership_pct : ℚ) (position : String) (gw1 gw2 : Int)
    (h : 15 ≤ ownership_pct) :
    (calculate_ownership_adjustment ownership_pct position gw1).final_modifier =
    (calculate_ownership_adjustment ownership_pct position gw2).final_modifier := by
  have hb : get_ownership_bracket ownership_pct = "template" ∨
      get_ownership_bracket ownership_pct = "popular" ∨
      get_ownership_bracket ownership_pct = "medium" := by
    unfold get_ownership_bracket
    by_cases h50 : 50 ≤ ownership_pct
    · simp [h50]
    by_cases h30 : 30 ≤ ownership_pct
    · simp [h50, h30]
    · simp [h50, h30, h]
  unfold calculate_ownership_adjustment
  rcases hb with hb | hb | hb <;> simp [hb]

/-- Witness for C6: ownership 20 (medium bracket) gets the same final
modifier in gameweek 1 and gameweek 38. -/
theorem claim_C6_witness :
    (calculate_ownership_adjustment 20 "MID" 1).final_modifier =
    (calculate_ownership_adjustment 20 "MID" 38).final_modifier :=
  claim_C6 20 "MID" 1 38 (by norm_num)

/-! ## Claim C2: batch analysis agrees with per-team analysis -/

lemma filter_window_involves (s : AnalyzerState) (w t : Int) :
    (s.fixtures.filter (in_window s w)).filter (involves_team t) =
    s.fixtures.filter (fun f => in_window s w f && involves_team t f) := by
  rw [List.filter_filter]
  exact List.filter_congr (fun f _ => Bool.and_comm _ _)

/-- The per-team entry computed inside `batch_analyze_all_teams` equals
the single-team analysis, whenever the fixture set is non-empty. -/
lemma batch_value_eq_analyze (s : AnalyzerState) (w t : Int) (hfix : s.fixtures ≠ []) :
    (if !((s.fixtures.filter (in_window s w)).filter (involves_team t)).isEmpty
     then analyze_team_fixtures_optimized s t
       ((s.fixtures.filter (in_window s w)).filter (involves_team t)) w
     else empty_fixture_result s t) = analyze_team_fixtures s t w := by
  rw [filter_window_involves]
  unfold analyze_team_fixtures
  rw [isEmpty_false_of_ne_nil hfix]
  cases h : (s.fixtures.filter fun f => in_window s w f && involves_team t f).isEmpty <;>
    simp [h]

lemma lookup_team_map (t : Int) (v : Int → FixtureAnalysis) :
    ∀ (l : List TeamEntry), t ∈ l.map TeamEntry.team_id →
      List.lookup t (l.map (fun e => (e.team_id, v e.team_id))) = some (v t)
  | [], ht => by simp at ht
  | e :: es, ht => by
    by_cases he : t = e.team_id
    · simp [List.lookup, he]
    · have hts : t ∈ es.map TeamEntry.team_id := by
        rcases List.mem_map.mp ht with ⟨e', he', rfl⟩
        rcases List.mem_cons.mp he' with rfl | he'
        · exact absurd rfl he
        · exact List.mem_map_of_mem _ he'
      have hbeq : (t == e.team_id) = false := beq_false_of_ne he
      simp [List.lookup, hbeq, lookup_team_map t v es hts]

/-- C2 (amended): provided the engine has fixture data, a non-empty teams
lookup, and at least one fixture inside the requested window, the
per-team entry of `batch_analyze_all_teams` exists for every known team
and equals `analyze_team_fixtures` on the same state.  (Without those
provisos the batch returns an empty dict, see the counterexample.) -/
theorem claim_C2_amended (s : AnalyzerState) (w t : Int)
    (hw : 1 ≤ w)
    (hfix : s.fixtures ≠ [])
    (hteams : s.teams_lookup ≠ [])
    (hrel : s.fixtures.filter (in_window s w) ≠ [])
    (ht : t ∈ s.teams_lookup.map TeamEntry.team_id) :
    List.lookup t (batch_analyze_all_teams s w) =
      some (analyze_team_fixtures s t w) := by
  unfold batch_analyze_all_teams
  simp only [isEmpty_false_of_ne_nil hfix, isEmpty_false_of_ne_nil hteams,
    isEmpty_false_of_ne_nil hrel, Bool.or_self, Bool.false_eq_true, if_false]
  have hmap := lookup_team_map t
    (fun tid =>
      if !((s.fixtures.filter (in_window s w)).filter (involves_team tid)).isEmpty
      then analyze_team_fixtures_optimized s tid
        ((s.fixtures.filter (in_window s w)).filter (involves_team tid)) w
      else empty_fixture_result s tid)
    s.teams_lookup ht
  exact hmap.trans (congrArg some (batch_value_eq_analyze s w t hfix))

/-- A state with teams but an empty fixture set: the batch returns an
empty dict while the per-team analysis would return a neutral result. -/
def analyzerW2empty : AnalyzerState :=
  { fixtures := [], teams_lookup := [⟨1, "A"⟩], current_gameweek := 1 }

/-- Counterexample to C2 as stated: team 1 is known to the engine, yet
`batch_analyze_all_teams` has no entry for it (the batch is empty because
the fixture set is empty), so no per-team entry "exists and equals" the
single-team analysis. -/
theorem claim_C2_counterexample :
    (1 : Int) ∈ analyzerW2empty.teams_lookup.map TeamEntry.team_id ∧
    List.lookup (1 : Int) (batch_analyze_all_teams analyzerW2empty 1) = none := by
  constructor
  · simp [analyzerW2empty]
  · simp [analyzerW2empty, batch_analyze_all_teams]

/-- A state with one in-window fixture between the two known teams. -/
def analyzerW2 : AnalyzerState :=
  { fixtures := [⟨1, 2, 1, 2, 4⟩], teams_lookup := [⟨1, "A"⟩, ⟨2, "B"⟩], current_gameweek := 1 }

/-- Witness for the amended C2 at a concrete state, team and window. -/
theorem claim_C2_witness :
    List.lookup (1 : Int) (batch_analyze_all_teams analyzerW2 1) =
      some (analyze_team_fixtures analyzerW2 1 1) :=
  claim_C2_amended analyzerW2 1 1 (by decide) (by decide) (by decide) (by decide) (by decide)

/-! ## Claim C5: the validity flag -/

lemma mem_select_greedy {x : StandardPlayer} (count : Nat) (budget : ℚ) :
    ∀ (ps sel : List StandardPlayer) (used : String → Nat),
      x ∈ (select_greedy count budget ps sel used).1 → x ∈ sel ∨ x ∈ ps
  | [], sel, used, hx => Or.inl hx
  | p :: ps, sel, used, hx => by
    unfold select_greedy at hx
    split at hx
    · exact Or.inl hx
    split at hx
    · rcases mem_select_greedy count budget ps sel used hx with h | h
      · exact Or.inl h
      · exact Or.inr (List.mem_cons_of_mem _ h)
    split at hx
    · rcases mem_select_greedy count budget ps sel used hx with h | h
      · exact Or.inl h
      · exact Or.inr (List.mem_cons_of_mem _ h)
    · rcases mem_select_greedy count budget ps _ _ hx with h | h
      · rcases List.mem_append.mp h with h | h
        · exact Or.inl h
        · exact Or.inr (List.mem_cons.mpr (Or.inl (List.mem_singleton.mp h)))
      · exact Or.inr (List.mem_cons_of_mem _ h)

lemma min_by_price_mem : ∀ {l : List StandardPlayer} {p : StandardPlayer},
    min_by_price l = some p → p ∈ l
  | [], p, h => by simp [min_by_price] at h
  | q :: qs, p, h => by
    cases hm : min_by_price qs with
    | none =>
      simp [min_by_price, hm] at h
      exact List.mem_cons.mpr (Or.inl h.symm)
    | some r =>
      simp only [min_by_price, hm] at h
      by_cases hpr : q.price ≤ r.price
      · rw [if_pos hpr] at h
        exact List.mem_cons.mpr (Or.inl (Option.some.inj h).symm)
      · rw [if_neg hpr] at h
        have hrp : r = p := Option.some.inj h
        exact List.mem_cons_of_mem _ (min_by_price_mem (hrp ▸ hm))

lemma mem_select_repair {x : StandardPlayer} (players : List StandardPlayer)
    (count : Nat) (budget : ℚ) :
    ∀ (fuel : Nat) (sel : List StandardPlayer) (used : String → Nat),
      x ∈ (select_repair players count budget fuel sel used).1 → x ∈ sel ∨ x ∈ players
  | 0, sel, used, hx => Or.inl hx
  | fuel + 1, sel, used, hx => by
    unfold select_repair at hx
    split at hx
    · split at hx
      · exact Or.inl hx
      · rename_i cheapest hmin
        split at hx
        · rcases mem_select_repair players count budget fuel _ _ hx with h | h
          · rcases List.mem_append.mp h with h | h
            · exact Or.inl h
            · have := List.mem_filter.mp (min_by_price_mem hmin)
              exact Or.inr (List.mem_singleton.mp h ▸ this.1)
          · exact Or.inr h
        · exact Or.inl hx
    · exact Or.inl hx

lemma mem_select_players {x : StandardPlayer} {ps : List StandardPlayer}
    {count : Nat} {budget : ℚ} {used : String → Nat}
    (hx : x ∈ (select_players ps count budget used).1) : x ∈ ps := by
  unfold select_players at hx
  rcases mem_select_repair ps count budget count _ _ hx with h | h
  · rcases mem_select_greedy count budget ps [] used h with h | h
    · simp at h
    · exact h
  · exact h

lemma mem_fill_loop {x : StandardPlayer} (budget : ℚ) (prep : String → List StandardPlayer) :
    ∀ (l : List (String × Nat)) (total : ℚ) (used : String → Nat)
      (acc : List StandardPlayer),
      x ∈ (fill_loop budget prep l total used acc).1 →
        x ∈ acc ∨ ∃ pc ∈ l, x ∈ prep pc.1
  | [], total, used, acc, hx => Or.inl hx
  | (pos, count) :: rest, total, used, acc, hx => by
    unfold fill_loop at hx
    rcases mem_fill_loop budget prep rest _ _ _ hx with h | ⟨pc, hpc, hmem⟩
    · rcases List.mem_append.mp h with h | h
      · exact Or.inl h
      · exact Or.inr ⟨(pos, count), List.mem_cons_self _ _, mem_select_players h⟩
    · exact Or.inr ⟨pc, List.mem_cons_of_mem _ hpc, hmem⟩

lemma mem_group_position {x : StandardPlayer} {players : List StandardPlayer} {pos : String}
    (hx : x ∈ group_by_position players pos) : x.position = pos := by
  have := List.mem_filter.mp hx
  have h2 := this.2
  rw [Bool.and_eq_true, decide_eq_true_eq] at h2
  exact h2.1

/-- Every member of a squad built by `build_squad` has one of the four
modelled positions. -/
lemma build_squad_positions (budget : ℚ) (players : List StandardPlayer) :
    ∀ x ∈ (build_squad budget players).starting_xi ++ (build_squad budget players).bench,
      x.position = "GK" ∨ x.position = "DEF" ∨ x.position = "MID" ∨ x.position = "FWD" := by
  intro x hx
  rcases List.mem_append.mp hx with hx | hx
  · rcases mem_fill_loop _ _ _ _ _ _ hx with h | ⟨pc, hpc, hmem⟩
    · simp at h
    · have hpos : x.position = pc.1 := by
        have : x ∈ group_by_position players pc.1 :=
          (List.perm_insertionSort _ _).mem_iff.mp hmem
        exact mem_group_position this
      rw [hpos]
      simp only [formation, List.mem_cons, List.not_mem_nil, or_false] at hpc
      rcases hpc with h | h | h | h <;> subst h <;> simp
  · rcases mem_fill_loop _ _ _ _ _ _ hx with h | ⟨pc, hpc, hmem⟩
    · simp at h
    · have hpos : x.position = pc.1 := by
        have : x ∈ group_by_position players pc.1 := (List.mem_filter.mp hmem).1
        exact mem_group_position this
      rw [hpos]
      simp only [bench_formation, List.mem_cons, List.not_mem_nil, or_false] at hpc
      rcases hpc with h | h | h | h <;> subst h <;> simp

lemma length_eq_sum_counts (squad : List StandardPlayer)
    (h : ∀ x ∈ squad,
      x.position = "GK" ∨ x.position = "DEF" ∨ x.position = "MID" ∨ x.position = "FWD") :
    squad.length = count_position squad "GK" + count_position squad "DEF" +
      count_position squad "MID" + count_position squad "FWD" := by
  induction squad with
  | nil => rfl
  | cons p ps ih =>
    have ihs := ih (fun x hx => h x (List.mem_cons_of_mem _ hx))
    have hp := h p (List.mem_cons_self _ _)
    simp only [count_position] at ihs ⊢
    rcases hp with hp | hp | hp | hp <;>
      simp [List.filter_cons, hp] <;> omega

/-- C5: `build_squad` is a total function (selection failure never
raises), and the validity flag of the returned squad is true exactly when
the full squad has position counts GK 2 / DEF 5 / MID 5 / FWD 3 and no
team contributes more than 3 players; a squad failing the check is still
returned, flagged invalid.  (The 15-length check of `_validate_squad` is
subsumed: every member of a built squad has one of the four positions, so
the counts force the length.) -/
theorem claim_C5 (budget : ℚ) (players : List StandardPlayer) :
    (build_squad budget players).valid = true ↔
      (count_position ((build_squad budget players).starting_xi ++
          (build_squad budget players).bench) "GK" = 2 ∧
       count_position ((build_squad budget players).starting_xi ++
          (build_squad budget players).bench) "DEF" = 5 ∧
       count_position ((build_squad budget players).starting_xi ++
          (build_squad budget players).bench) "MID" = 5 ∧
       count_position ((build_squad budget players).starting_xi ++
          (build_squad budget players).bench) "FWD" = 3 ∧
       ∀ p ∈ (build_squad budget players).starting_xi ++ (build_squad budget players).bench,
         count_team ((build_squad budget players).starting_xi ++
           (build_squad budget players).bench) p.team_name ≤ 3) := by
  have hv : (build_squad budget players).valid =
      validate_squad ((build_squad budget players).starting_xi ++
        (build_squad budget players).bench) := rfl
  rw [hv]
  have hlen := length_eq_sum_counts _ (build_squad_positions budget players)
  unfold validate_squad
  simp only [Bool.and_eq_true, decide_eq_true_eq, List.all_eq_true]
  constructor
  · rintro ⟨⟨⟨⟨⟨h15, hgk⟩, hdef⟩, hmid⟩, hfwd⟩, hteam⟩
    exact ⟨hgk, hdef, hmid, hfwd, fun p hp => hteam p hp⟩
  · rintro ⟨hgk, hdef, hmid, hfwd, hteam⟩
    exact ⟨⟨⟨⟨⟨by omega, hgk⟩, hdef⟩, hmid⟩, hfwd⟩, fun p hp => hteam p hp⟩

/-! ## Claim C1: budget bound and the team-cap violation -/

lemma squad_cost_append (l1 l2 : List StandardPlayer) :
    squad_cost (l1 ++ l2) = squad_cost l1 + squad_cost l2 := by
  simp [squad_cost]

lemma squad_cost_concat (l : List StandardPlayer) (p : StandardPlayer) :
    squad_cost (l ++ [p]) = squad_cost l + p.price := by
  simp [squad_cost]

lemma select_greedy_cost (count : Nat) (budget : ℚ) :
    ∀ (ps sel : List StandardPlayer) (used : String → Nat),
      squad_cost sel ≤ budget → squad_cost (select_greedy count budget ps sel used).1 ≤ budget
  | [], sel, used, h => h
  | p :: ps, sel, used, h => by
    unfold select_greedy
    split
    · exact h
    split
    · exact select_greedy_cost count budget ps sel used h
    split
    · exact select_greedy_cost count budget ps sel used h
    · rename_i hcost
      refine select_greedy_cost count budget ps _ _ ?_
      rw [squad_cost_concat]
      exact le_of_not_lt hcost

lemma select_repair_cost (players : List StandardPlayer) (count : Nat) (budget : ℚ) :
    ∀ (fuel : Nat) (sel : List StandardPlayer) (used : String → Nat),
      squad_cost sel ≤ budget →
      squad_cost (select_repair players count budget fuel sel used).1 ≤ budget
  | 0, sel, used, h => h
  | fuel + 1, sel, used, h => by
    unfold select_repair
    split
    · split
      · exact h
      · split
        · rename_i cheapest hmin hcost
          refine select_repair_cost players count budget fuel _ _ ?_
          rw [squad_cost_concat]
          exact hcost
        · exact h
    · exact h

lemma select_players_cost (ps : List StandardPlayer) (count : Nat) (budget : ℚ)
    (used : String → Nat) (h : 0 ≤ budget) :
    squad_cost (select_players ps count budget used).1 ≤ budget := by
  unfold select_players
  refine select_repair_cost ps count budget count _ _ ?_
  refine select_greedy_cost count budget ps [] used ?_
  simpa [squad_cost] using h

lemma fill_loop_ext (budget : ℚ) (prep : String → List StandardPlayer) :
    ∀ (l : List (String × Nat)) (total : ℚ) (used : String → Nat)
      (acc : List StandardPlayer),
      ∃ ext, (fill_loop budget prep l total used acc).1 = acc ++ ext ∧
        (fill_loop budget prep l total used acc).2.1 = total + squad_cost ext
  | [], total, used, acc => ⟨[], by simp [fill_loop, squad_cost]⟩
  | (pos, count) :: rest, total, used, acc => by
    obtain ⟨ext, he, hc⟩ := fill_loop_ext budget prep rest
      (total + squad_cost (select_players (prep pos) count (budget - total) used).1)
      (select_players (prep pos) count (budget - total) used).2
      (acc ++ (select_players (prep pos) count (budget - total) used).1)
    refine ⟨(select_players (prep pos) count (budget - total) used).1 ++ ext, ?_, ?_⟩
    · rw [fill_loop, he, List.append_assoc]
    · rw [fill_loop, hc, squad_cost_append]
      ring

lemma fill_loop_le (budget : ℚ) (prep : String → List StandardPlayer) :
    ∀ (l : List (String × Nat)) (total : ℚ) (used : String → Nat)
      (acc : List StandardPlayer),
      total ≤ budget → (fill_loop budget prep l total used acc).2.1 ≤ budget
  | [], total, used, acc, h => h
  | (pos, count) :: rest, total, used, acc, h => by
    rw [fill_loop]
    refine fill_loop_le budget prep rest _ _ _ ?_
    have hsel := select_players_cost (prep pos) count (budget - total) used (by linarith)
    linarith

/-- C1 (amended): for any non-negative budget and any input player pool,
the squad returned by `build_squad` never exceeds the budget in total
cost.  The team-cap half of the original claim is false — the repair pass
adds the cheapest affordable candidate without consulting the team cap —
see the counterexample. -/
theorem claim_C1_amended (budget : ℚ) (players : List StandardPlayer)
    (h : 0 ≤ budget) :
    squad_cost ((build_squad budget players).starting_xi ++
      (build_squad budget players).bench) ≤ budget := by
  rw [squad_cost_append]
  have hxi := fill_loop_ext budget
    (fun pos => sort_players (group_by_position players pos)) formation 0 (fun _ => 0) []
  obtain ⟨ext1, he1, hc1⟩ := hxi
  have hxi1 : (build_squad budget players).starting_xi =
      (fill_loop budget (fun pos => sort_players (group_by_position players pos))
        formation 0 (fun _ => 0) []).1 := rfl
  set A := fill_loop budget (fun pos => sort_players (group_by_position players pos))
    formation 0 (fun _ => 0) [] with hA
  have hbench : (build_squad budget players).bench =
      (fill_loop budget
        (fun pos => (group_by_position players pos).filter (fun p => decide (p ∉ A.1)))
        bench_formation A.2.1 A.2.2 []).1 := rfl
  set B := fill_loop budget
    (fun pos => (group_by_position players pos).filter (fun p => decide (p ∉ A.1)))
    bench_formation A.2.1 A.2.2 [] with hB
  obtain ⟨ext2, he2, hc2⟩ := fill_loop_ext budget
    (fun pos => (group_by_position players pos).filter (fun p => decide (p ∉ A.1)))
    bench_formation A.2.1 A.2.2 []
  have hAle : A.2.1 ≤ budget := fill_loop_le budget _ formation 0 (fun _ => 0) [] h
  have hBle : B.2.1 ≤ budget := fill_loop_le budget _ bench_formation A.2.1 A.2.2 [] hAle
  have he2' : B.1 = [] ++ ext2 := he2
  have hc2' : B.2.1 = A.2.1 + squad_cost ext2 := hc2
  have hcostA : squad_cost A.1 = A.2.1 := by
    rw [he1, List.nil_append]
    linarith [hc1]
  have hcostB : squad_cost B.1 = B.2.1 - A.2.1 := by
    rw [he2', List.nil_append]
    linarith [hc2']
  rw [hxi1, hbench]
  linarith [hcostA, hcostB, hBle]

/-- Counterexample pool for C1: five defenders all from team `T1`.  The
greedy pass stops at three of them, but the repair pass fills the two
remaining DEF slots (one starting, one bench) with `T1` players without
consulting the team cap, giving `T1` five squad members. -/
def cexGK1 : StandardPlayer := ⟨1, "gk1", "GK", "T2", 4, 0, 9, 0, 0, 0, 0, 0, 0, 100⟩

def cexGK2 : StandardPlayer := ⟨2, "gk2", "GK", "T3", 4, 0, 8, 0, 0, 0, 0, 0, 0, 100⟩

def cexDEF1 : StandardPlayer := ⟨3, "def1", "DEF", "T1", 4, 0, 9, 0, 0, 0, 0, 0, 0, 100⟩

def cexDEF2 : StandardPlayer := ⟨4, "def2", "DEF", "T1", 4, 0, 8, 0, 0, 0, 0, 0, 0, 100⟩

def cexDEF3 : StandardPlayer := ⟨5, "def3", "DEF", "T1", 4, 0, 7, 0, 0, 0, 0, 0, 0, 100⟩

def cexDEF4 : StandardPlayer := ⟨6, "def4", "DEF", "T1", 4, 0, 6, 0, 0, 0, 0, 0, 0, 100⟩

def cexDEF5 : StandardPlayer := ⟨7, "def5", "DEF", "T1", 4, 0, 5, 0, 0, 0, 0, 0, 0, 100⟩

def cexMID1 : StandardPlayer := ⟨8, "mid1", "MID", "T2", 5, 0, 9, 0, 0, 0, 0, 0, 0, 100⟩

def cexMID2 : StandardPlayer := ⟨9, "mid2", "MID", "T3", 5, 0, 8, 0, 0, 0, 0, 0, 0, 100⟩

def cexMID3 : StandardPlayer := ⟨10, "mid3", "MID", "T4", 5, 0, 7, 0, 0, 0, 0, 0, 0, 100⟩

def cexMID4 : StandardPlayer := ⟨11, "mid4", "MID", "T5", 5, 0, 6, 0, 0, 0, 0, 0, 0, 100⟩

def cexMID5 : StandardPlayer := ⟨12, "mid5", "MID", "T6", 5, 0, 5, 0, 0, 0, 0, 0, 0, 100⟩

def cexFWD1 : StandardPlayer := ⟨13, "fwd1", "FWD", "T4", 5, 0, 9, 0, 0, 0, 0, 0, 0, 100⟩

def cexFWD2 : StandardPlayer := ⟨14, "fwd2", "FWD", "T5", 5, 0, 8, 0, 0, 0, 0, 0, 0, 100⟩

def cexFWD3 : StandardPlayer := ⟨15, "fwd3", "FWD", "T6", 5, 0, 7, 0, 0, 0, 0, 0, 0, 100⟩

/-- The 15-player pool of the C1 counterexample: all eligible, all four
positions, six teams. -/
def cexPool : List StandardPlayer :=
  [cexGK1, cexGK2, cexDEF1, cexDEF2, cexDEF3, cexDEF4, cexDEF5,
   cexMID1, cexMID2, cexMID3, cexMID4, cexMID5, cexFWD1, cexFWD2, cexFWD3]


/-! Projection facts for the counterexample pool, so that the staged
evaluation of `build_squad` below never has to unfold the player records. -/
lemma cexGK1_team : (cexGK1).team_name = "T2" := rfl
lemma cexGK1_price : (cexGK1).price = 4 := rfl
lemma cexGK2_team : (cexGK2).team_name = "T3" := rfl
lemma cexGK2_price : (cexGK2).price = 4 := rfl
lemma cexDEF1_team : (cexDEF1).team_name = "T1" := rfl
lemma cexDEF1_price : (cexDEF1).price = 4 := rfl
lemma cexDEF2_team : (cexDEF2).team_name = "T1" := rfl
lemma cexDEF2_price : (cexDEF2).price = 4 := rfl
lemma cexDEF3_team : (cexDEF3).team_name = "T1" := rfl
lemma cexDEF3_price : (cexDEF3).price = 4 := rfl
lemma cexDEF4_team : (cexDEF4).team_name = "T1" := rfl
lemma cexDEF4_price : (cexDEF4).price = 4 := rfl
lemma cexDEF5_team : (cexDEF5).team_name = "T1" := rfl
lemma cexDEF5_price : (cexDEF5).price = 4 := rfl
lemma cexMID1_team : (cexMID1).team_name = "T2" := rfl
lemma cexMID1_price : (cexMID1).price = 5 := rfl
lemma cexMID2_team : (cexMID2).team_name = "T3" := rfl
lemma cexMID2_price : (cexMID2).price = 5 := rfl
lemma cexMID3_team : (cexMID3).team_name = "T4" := rfl
lemma cexMID3_price : (cexMID3).price = 5 := rfl
lemma cexMID4_team : (cexMID4).team_name = "T5" := rfl
lemma cexMID4_price : (cexMID4).price = 5 := rfl
lemma cexMID5_team : (cexMID5).team_name = "T6" := rfl
lemma cexMID5_price : (cexMID5).price = 5 := rfl
lemma cexFWD1_team : (cexFWD1).team_name = "T4" := rfl
lemma cexFWD1_price : (cexFWD1).price = 5 := rfl
lemma cexFWD2_team : (cexFWD2).team_name = "T5" := rfl
lemma cexFWD2_price : (cexFWD2).price = 5 := rfl
lemma cexFWD3_team : (cexFWD3).team_name = "T6" := rfl
lemma cexFWD3_price : (cexFWD3).price = 5 := rfl

/-! Pre-evaluated position groups, sorts and not-yet-selected filters of
the counterexample run. -/

lemma cex_group_gk : group_by_position cexPool "GK" = [cexGK1, cexGK2] := by
  simp +decide [group_by_position, eligible, cexPool, List.filter_cons, cexGK1, cexGK2, cexDEF1, cexDEF2, cexDEF3, cexDEF4, cexDEF5, cexMID1, cexMID2, cexMID3, cexMID4, cexMID5, cexFWD1, cexFWD2, cexFWD3]

lemma cex_group_def : group_by_position cexPool "DEF" =
    [cexDEF1, cexDEF2, cexDEF3, cexDEF4, cexDEF5] := by
  simp +decide [group_by_position, eligible, cexPool, List.filter_cons, cexGK1, cexGK2, cexDEF1, cexDEF2, cexDEF3, cexDEF4, cexDEF5, cexMID1, cexMID2, cexMID3, cexMID4, cexMID5, cexFWD1, cexFWD2, cexFWD3]

lemma cex_group_mid : group_by_position cexPool "MID" =
    [cexMID1, cexMID2, cexMID3, cexMID4, cexMID5] := by
  simp +decide [group_by_position, eligible, cexPool, List.filter_cons, cexGK1, cexGK2, cexDEF1, cexDEF2, cexDEF3, cexDEF4, cexDEF5, cexMID1, cexMID2, cexMID3, cexMID4, cexMID5, cexFWD1, cexFWD2, cexFWD3]

lemma cex_group_fwd : group_by_position cexPool "FWD" = [cexFWD1, cexFWD2, cexFWD3] := by
  simp +decide [group_by_position, eligible, cexPool, List.filter_cons, cexGK1, cexGK2, cexDEF1, cexDEF2, cexDEF3, cexDEF4, cexDEF5, cexMID1, cexMID2, cexMID3, cexMID4, cexMID5, cexFWD1, cexFWD2, cexFWD3]

lemma cex_sort_gk : sort_players [cexGK1, cexGK2] = [cexGK1, cexGK2] := by
  norm_num [sort_players, List.insertionSort, List.orderedInsert, sort_key,
    cexGK1, cexGK2, max_def]

lemma cex_sort_def : sort_players [cexDEF1, cexDEF2, cexDEF3, cexDEF4, cexDEF5] =
    [cexDEF1, cexDEF2, cexDEF3, cexDEF4, cexDEF5] := by
  norm_num [sort_players, List.insertionSort, List.orderedInsert, sort_key,
    cexDEF1, cexDEF2, cexDEF3, cexDEF4, cexDEF5, max_def]

lemma cex_sort_mid : sort_players [cexMID1, cexMID2, cexMID3, cexMID4, cexMID5] =
    [cexMID1, cexMID2, cexMID3, cexMID4, cexMID5] := by
  norm_num [sort_players, List.insertionSort, List.orderedInsert, sort_key,
    cexMID1, cexMID2, cexMID3, cexMID4, cexMID5, max_def]

lemma cex_sort_fwd : sort_players [cexFWD1, cexFWD2, cexFWD3] =
    [cexFWD1, cexFWD2, cexFWD3] := by
  norm_num [sort_players, List.insertionSort, List.orderedInsert, sort_key,
    cexFWD1, cexFWD2, cexFWD3, max_def]

lemma cex_filter_def_repair :
    List.filter (fun p => decide (p ∉ [cexDEF1, cexDEF2, cexDEF3]))
      [cexDEF1, cexDEF2, cexDEF3, cexDEF4, cexDEF5] = [cexDEF4, cexDEF5] := by
  simp +decide [List.filter_cons, cexDEF1, cexDEF2, cexDEF3, cexDEF4, cexDEF5]

lemma cex_filter_bench_gk :
    List.filter (fun p => decide (p ∉ [cexGK1, cexDEF1, cexDEF2, cexDEF3, cexDEF4, cexMID1, cexMID2, cexMID3, cexMID4, cexFWD1, cexFWD2])) [cexGK1, cexGK2] = [cexGK2] := by
  simp +decide [List.filter_cons, cexGK1, cexGK2, cexDEF1, cexDEF2, cexDEF3, cexDEF4, cexDEF5, cexMID1, cexMID2, cexMID3, cexMID4, cexMID5, cexFWD1, cexFWD2, cexFWD3]

lemma cex_filter_bench_def :
    List.filter (fun p => decide (p ∉ [cexGK1, cexDEF1, cexDEF2, cexDEF3, cexDEF4, cexMID1, cexMID2, cexMID3, cexMID4, cexFWD1, cexFWD2]))
      [cexDEF1, cexDEF2, cexDEF3, cexDEF4, cexDEF5] = [cexDEF5] := by
  simp +decide [List.filter_cons, cexGK1, cexGK2, cexDEF1, cexDEF2, cexDEF3, cexDEF4, cexDEF5, cexMID1, cexMID2, cexMID3, cexMID4, cexMID5, cexFWD1, cexFWD2, cexFWD3]

lemma cex_filter_bench_mid :
    List.filter (fun p => decide (p ∉ [cexGK1, cexDEF1, cexDEF2, cexDEF3, cexDEF4, cexMID1, cexMID2, cexMID3, cexMID4, cexFWD1, cexFWD2]))
      [cexMID1, cexMID2, cexMID3, cexMID4, cexMID5] = [cexMID5] := by
  simp +decide [List.filter_cons, cexGK1, cexGK2, cexDEF1, cexDEF2, cexDEF3, cexDEF4, cexDEF5, cexMID1, cexMID2, cexMID3, cexMID4, cexMID5, cexFWD1, cexFWD2, cexFWD3]

lemma cex_filter_bench_fwd :
    List.filter (fun p => decide (p ∉ [cexGK1, cexDEF1, cexDEF2, cexDEF3, cexDEF4, cexMID1, cexMID2, cexMID3, cexMID4, cexFWD1, cexFWD2])) [cexFWD1, cexFWD2, cexFWD3] = [cexFWD3] := by
  simp +decide [List.filter_cons, cexGK1, cexGK2, cexDEF1, cexDEF2, cexDEF3, cexDEF4, cexDEF5, cexMID1, cexMID2, cexMID3, cexMID4, cexMID5, cexFWD1, cexFWD2, cexFWD3]


/-! String facts used to evaluate the team-usage dict queries. -/

lemma cex_ne_T1_T2 : ("T1" = "T2") = False := by simp
lemma cex_ne_T1_T3 : ("T1" = "T3") = False := by simp
lemma cex_ne_T1_T4 : ("T1" = "T4") = False := by simp
lemma cex_ne_T1_T5 : ("T1" = "T5") = False := by simp
lemma cex_ne_T1_T6 : ("T1" = "T6") = False := by simp
lemma cex_ne_T2_T1 : ("T2" = "T1") = False := by simp
lemma cex_ne_T2_T3 : ("T2" = "T3") = False := by simp
lemma cex_ne_T2_T4 : ("T2" = "T4") = False := by simp
lemma cex_ne_T2_T5 : ("T2" = "T5") = False := by simp
lemma cex_ne_T2_T6 : ("T2" = "T6") = False := by simp
lemma cex_ne_T3_T1 : ("T3" = "T1") = False := by simp
lemma cex_ne_T3_T2 : ("T3" = "T2") = False := by simp
lemma cex_ne_T3_T4 : ("T3" = "T4") = False := by simp
lemma cex_ne_T3_T5 : ("T3" = "T5") = False := by simp
lemma cex_ne_T3_T6 : ("T3" = "T6") = False := by simp
lemma cex_ne_T4_T1 : ("T4" = "T1") = False := by simp
lemma cex_ne_T4_T2 : ("T4" = "T2") = False := by simp
lemma cex_ne_T4_T3 : ("T4" = "T3") = False := by simp
lemma cex_ne_T4_T5 : ("T4" = "T5") = False := by simp
lemma cex_ne_T4_T6 : ("T4" = "T6") = False := by simp
lemma cex_ne_T5_T1 : ("T5" = "T1") = False := by simp
lemma cex_ne_T5_T2 : ("T5" = "T2") = False := by simp
lemma cex_ne_T5_T3 : ("T5" = "T3") = False := by simp
lemma cex_ne_T5_T4 : ("T5" = "T4") = False := by simp
lemma cex_ne_T5_T6 : ("T5" = "T6") = False := by simp
lemma cex_ne_T6_T1 : ("T6" = "T1") = False := by simp
lemma cex_ne_T6_T2 : ("T6" = "T2") = False := by simp
lemma cex_ne_T6_T3 : ("T6" = "T3") = False := by simp
lemma cex_ne_T6_T4 : ("T6" = "T4") = False := by simp
lemma cex_ne_T6_T5 : ("T6" = "T5") = False := by simp

/-! The eight `_select_players` calls of the counterexample run, with the
team-usage dict at each point written as an explicit chain of `bump`s. -/

lemma cex_step1 : select_players [cexGK1, cexGK2] 1 100 (fun _ => 0) =
    ([cexGK1], bump (fun _ => 0) "T2") := by
  norm_num [select_players, select_greedy, select_repair, min_by_price, bump, squad_cost, ne_eq, List.cons_ne_nil, List.filter_cons, List.filter_nil, List.not_mem_nil, cex_ne_T1_T2, cex_ne_T1_T3, cex_ne_T1_T4, cex_ne_T1_T5, cex_ne_T1_T6, cex_ne_T2_T1, cex_ne_T2_T3, cex_ne_T2_T4, cex_ne_T2_T5, cex_ne_T2_T6, cex_ne_T3_T1, cex_ne_T3_T2, cex_ne_T3_T4, cex_ne_T3_T5, cex_ne_T3_T6, cex_ne_T4_T1, cex_ne_T4_T2, cex_ne_T4_T3, cex_ne_T4_T5, cex_ne_T4_T6, cex_ne_T5_T1, cex_ne_T5_T2, cex_ne_T5_T3, cex_ne_T5_T4, cex_ne_T5_T6, cex_ne_T6_T1, cex_ne_T6_T2, cex_ne_T6_T3, cex_ne_T6_T4, cex_ne_T6_T5, cexGK1_team, cexGK1_price, cexGK2_team, cexGK2_price, cexDEF1_team, cexDEF1_price, cexDEF2_team, cexDEF2_price, cexDEF3_team, cexDEF3_price, cexDEF4_team, cexDEF4_price, cexDEF5_team, cexDEF5_price, cexMID1_team, cexMID1_price, cexMID2_team, cexMID2_price, cexMID3_team, cexMID3_price, cexMID4_team, cexMID4_price, cexMID5_team, cexMID5_price, cexFWD1_team, cexFWD1_price, cexFWD2_team, cexFWD2_price, cexFWD3_team, cexFWD3_price]

lemma cex_step2 : select_players [cexDEF1, cexDEF2, cexDEF3, cexDEF4, cexDEF5] 4 96
    (bump (fun _ => 0) "T2") = ([cexDEF1, cexDEF2, cexDEF3, cexDEF4], bump (bump (bump (bump (bump (fun _ => 0) "T2") "T1") "T1") "T1") "T1") := by
  norm_num [select_players, select_greedy, select_repair, min_by_price, bump, squad_cost, ne_eq, List.cons_ne_nil, List.filter_cons, List.filter_nil, List.not_mem_nil, cex_ne_T1_T2, cex_ne_T1_T3, cex_ne_T1_T4, cex_ne_T1_T5, cex_ne_T1_T6, cex_ne_T2_T1, cex_ne_T2_T3, cex_ne_T2_T4, cex_ne_T2_T5, cex_ne_T2_T6, cex_ne_T3_T1, cex_ne_T3_T2, cex_ne_T3_T4, cex_ne_T3_T5, cex_ne_T3_T6, cex_ne_T4_T1, cex_ne_T4_T2, cex_ne_T4_T3, cex_ne_T4_T5, cex_ne_T4_T6, cex_ne_T5_T1, cex_ne_T5_T2, cex_ne_T5_T3, cex_ne_T5_T4, cex_ne_T5_T6, cex_ne_T6_T1, cex_ne_T6_T2, cex_ne_T6_T3, cex_ne_T6_T4, cex_ne_T6_T5, cexGK1_team, cexGK1_price, cexGK2_team, cexGK2_price, cexDEF1_team, cexDEF1_price, cexDEF2_team, cexDEF2_price, cexDEF3_team, cexDEF3_price, cexDEF4_team, cexDEF4_price, cexDEF5_team, cexDEF5_price, cexMID1_team, cexMID1_price, cexMID2_team, cexMID2_price, cexMID3_team, cexMID3_price, cexMID4_team, cexMID4_price, cexMID5_team, cexMID5_price, cexFWD1_team, cexFWD1_price, cexFWD2_team, cexFWD2_price, cexFWD3_team, cexFWD3_price, cex_filter_def_repair]

lemma cex_step3 : select_players [cexMID1, cexMID2, cexMID3, cexMID4, cexMID5] 4 80
    (bump (bump (bump (bump (bump (fun _ => 0) "T2") "T1") "T1") "T1") "T1") = ([cexMID1, cexMID2, cexMID3, cexMID4], bump (bump (bump (bump (bump (bump (bump (bump (bump (fun _ => 0) "T2") "T1") "T1") "T1") "T1") "T2") "T3") "T4") "T5") := by
  norm_num [select_players, select_greedy, select_repair, min_by_price, bump, squad_cost, ne_eq, List.cons_ne_nil, List.filter_cons, List.filter_nil, List.not_mem_nil, cex_ne_T1_T2, cex_ne_T1_T3, cex_ne_T1_T4, cex_ne_T1_T5, cex_ne_T1_T6, cex_ne_T2_T1, cex_ne_T2_T3, cex_ne_T2_T4, cex_ne_T2_T5, cex_ne_T2_T6, cex_ne_T3_T1, cex_ne_T3_T2, cex_ne_T3_T4, cex_ne_T3_T5, cex_ne_T3_T6, cex_ne_T4_T1, cex_ne_T4_T2, cex_ne_T4_T3, cex_ne_T4_T5, cex_ne_T4_T6, cex_ne_T5_T1, cex_ne_T5_T2, cex_ne_T5_T3, cex_ne_T5_T4, cex_ne_T5_T6, cex_ne_T6_T1, cex_ne_T6_T2, cex_ne_T6_T3, cex_ne_T6_T4, cex_ne_T6_T5, cexGK1_team, cexGK1_price, cexGK2_team, cexGK2_price, cexDEF1_team, cexDEF1_price, cexDEF2_team, cexDEF2_price, cexDEF3_team, cexDEF3_price, cexDEF4_team, cexDEF4_price, cexDEF5_team, cexDEF5_price, cexMID1_team, cexMID1_price, cexMID2_team, cexMID2_price, cexMID3_team, cexMID3_price, cexMID4_team, cexMID4_price, cexMID5_team, cexMID5_price, cexFWD1_team, cexFWD1_price, cexFWD2_team, cexFWD2_price, cexFWD3_team, cexFWD3_price]

lemma cex_step4 : select_players [cexFWD1, cexFWD2, cexFWD3] 2 60
    (bump (bump (bump (bump (bump (bump (bump (bump (bump (fun _ => 0) "T2") "T1") "T1") "T1") "T1") "T2") "T3") "T4") "T5") = ([cexFWD1, cexFWD2], bump (bump (bump (bump (bump (bump (bump (bump (bump (bump (bump (fun _ => 0) "T2") "T1") "T1") "T1") "T1") "T2") "T3") "T4") "T5") "T4") "T5") := by
  norm_num [select_players, select_greedy, select_repair, min_by_price, bump, squad_cost, ne_eq, List.cons_ne_nil, List.filter_cons, List.filter_nil, List.not_mem_nil, cex_ne_T1_T2, cex_ne_T1_T3, cex_ne_T1_T4, cex_ne_T1_T5, cex_ne_T1_T6, cex_ne_T2_T1, cex_ne_T2_T3, cex_ne_T2_T4, cex_ne_T2_T5, cex_ne_T2_T6, cex_ne_T3_T1, cex_ne_T3_T2, cex_ne_T3_T4, cex_ne_T3_T5, cex_ne_T3_T6, cex_ne_T4_T1, cex_ne_T4_T2, cex_ne_T4_T3, cex_ne_T4_T5, cex_ne_T4_T6, cex_ne_T5_T1, cex_ne_T5_T2, cex_ne_T5_T3, cex_ne_T5_T4, cex_ne_T5_T6, cex_ne_T6_T1, cex_ne_T6_T2, cex_ne_T6_T3, cex_ne_T6_T4, cex_ne_T6_T5, cexGK1_team, cexGK1_price, cexGK2_team, cexGK2_price, cexDEF1_team, cexDEF1_price, cexDEF2_team, cexDEF2_price, cexDEF3_team, cexDEF3_price, cexDEF4_team, cexDEF4_price, cexDEF5_team, cexDEF5_price, cexMID1_team, cexMID1_price, cexMID2_team, cexMID2_price, cexMID3_team, cexMID3_price, cexMID4_team, cexMID4_price, cexMID5_team, cexMID5_price, cexFWD1_team, cexFWD1_price, cexFWD2_team, cexFWD2_price, cexFWD3_team, cexFWD3_price]

lemma cex_step5 : select_players [cexGK2] 1 50 (bump (bump (bump (bump (bump (bump (bump (bump (bump (bump (bump (fun _ => 0) "T2") "T1") "T1") "T1") "T1") "T2") "T3") "T4") "T5") "T4") "T5") = ([cexGK2], bump (bump (bump (bump (bump (bump (bump (bump (bump (bump (bump (bump (fun _ => 0) "T2") "T1") "T1") "T1") "T1") "T2") "T3") "T4") "T5") "T4") "T5") "T3") := by
  norm_num [select_players, select_greedy, select_repair, min_by_price, bump, squad_cost, ne_eq, List.cons_ne_nil, List.filter_cons, List.filter_nil, List.not_mem_nil, cex_ne_T1_T2, cex_ne_T1_T3, cex_ne_T1_T4, cex_ne_T1_T5, cex_ne_T1_T6, cex_ne_T2_T1, cex_ne_T2_T3, cex_ne_T2_T4, cex_ne_T2_T5, cex_ne_T2_T6, cex_ne_T3_T1, cex_ne_T3_T2, cex_ne_T3_T4, cex_ne_T3_T5, cex_ne_T3_T6, cex_ne_T4_T1, cex_ne_T4_T2, cex_ne_T4_T3, cex_ne_T4_T5, cex_ne_T4_T6, cex_ne_T5_T1, cex_ne_T5_T2, cex_ne_T5_T3, cex_ne_T5_T4, cex_ne_T5_T6, cex_ne_T6_T1, cex_ne_T6_T2, cex_ne_T6_T3, cex_ne_T6_T4, cex_ne_T6_T5, cexGK1_team, cexGK1_price, cexGK2_team, cexGK2_price, cexDEF1_team, cexDEF1_price, cexDEF2_team, cexDEF2_price, cexDEF3_team, cexDEF3_price, cexDEF4_team, cexDEF4_price, cexDEF5_team, cexDEF5_price, cexMID1_team, cexMID1_price, cexMID2_team, cexMID2_price, cexMID3_team, cexMID3_price, cexMID4_team, cexMID4_price, cexMID5_team, cexMID5_price, cexFWD1_team, cexFWD1_price, cexFWD2_team, cexFWD2_price, cexFWD3_team, cexFWD3_price]

lemma cex_step6 : select_players [cexDEF5] 1 46 (bump (bump (bump (bump (bump (bump (bump (bump (bump (bump (bump (bump (fun _ => 0) "T2") "T1") "T1") "T1") "T1") "T2") "T3") "T4") "T5") "T4") "T5") "T3") = ([cexDEF5], bump (bump (bump (bump (bump (bump (bump (bump (bump (bump (bump (bump (bump (fun _ => 0) "T2") "T1") "T1") "T1") "T1") "T2") "T3") "T4") "T5") "T4") "T5") "T3") "T1") := by
  norm_num [select_players, select_greedy, select_repair, min_by_price, bump, squad_cost, ne_eq, List.cons_ne_nil, List.filter_cons, List.filter_nil, List.not_mem_nil, cex_ne_T1_T2, cex_ne_T1_T3, cex_ne_T1_T4, cex_ne_T1_T5, cex_ne_T1_T6, cex_ne_T2_T1, cex_ne_T2_T3, cex_ne_T2_T4, cex_ne_T2_T5, cex_ne_T2_T6, cex_ne_T3_T1, cex_ne_T3_T2, cex_ne_T3_T4, cex_ne_T3_T5, cex_ne_T3_T6, cex_ne_T4_T1, cex_ne_T4_T2, cex_ne_T4_T3, cex_ne_T4_T5, cex_ne_T4_T6, cex_ne_T5_T1, cex_ne_T5_T2, cex_ne_T5_T3, cex_ne_T5_T4, cex_ne_T5_T6, cex_ne_T6_T1, cex_ne_T6_T2, cex_ne_T6_T3, cex_ne_T6_T4, cex_ne_T6_T5, cexGK1_team, cexGK1_price, cexGK2_team, cexGK2_price, cexDEF1_team, cexDEF1_price, cexDEF2_team, cexDEF2_price, cexDEF3_team, cexDEF3_price, cexDEF4_team, cexDEF4_price, cexDEF5_team, cexDEF5_price, cexMID1_team, cexMID1_price, cexMID2_team, cexMID2_price, cexMID3_team, cexMID3_price, cexMID4_team, cexMID4_price, cexMID5_team, cexMID5_price, cexFWD1_team, cexFWD1_price, cexFWD2_team, cexFWD2_price, cexFWD3_team, cexFWD3_price]

lemma cex_step7 : select_players [cexMID5] 1 42 (bump (bump (bump (bump (bump (bump (bump (bump (bump (bump (bump (bump (bump (fun _ => 0) "T2") "T1") "T1") "T1") "T1") "T2") "T3") "T4") "T5") "T4") "T5") "T3") "T1") = ([cexMID5], bump (bump (bump (bump (bump (bump (bump (bump (bump (bump (bump (bump (bump (bump (fun _ => 0) "T2") "T1") "T1") "T1") "T1") "T2") "T3") "T4") "T5") "T4") "T5") "T3") "T1") "T6") := by
  norm_num [select_players, select_greedy, select_repair, min_by_price, bump, squad_cost, ne_eq, List.cons_ne_nil, List.filter_cons, List.filter_nil, List.not_mem_nil, cex_ne_T1_T2, cex_ne_T1_T3, cex_ne_T1_T4, cex_ne_T1_T5, cex_ne_T1_T6, cex_ne_T2_T1, cex_ne_T2_T3, cex_ne_T2_T4, cex_ne_T2_T5, cex_ne_T2_T6, cex_ne_T3_T1, cex_ne_T3_T2, cex_ne_T3_T4, cex_ne_T3_T5, cex_ne_T3_T6, cex_ne_T4_T1, cex_ne_T4_T2, cex_ne_T4_T3, cex_ne_T4_T5, cex_ne_T4_T6, cex_ne_T5_T1, cex_ne_T5_T2, cex_ne_T5_T3, cex_ne_T5_T4, cex_ne_T5_T6, cex_ne_T6_T1, cex_ne_T6_T2, cex_ne_T6_T3, cex_ne_T6_T4, cex_ne_T6_T5, cexGK1_team, cexGK1_price, cexGK2_team, cexGK2_price, cexDEF1_team, cexDEF1_price, cexDEF2_team, cexDEF2_price, cexDEF3_team, cexDEF3_price, cexDEF4_team, cexDEF4_price, cexDEF5_team, cexDEF5_price, cexMID1_team, cexMID1_price, cexMID2_team, cexMID2_price, cexMID3_team, cexMID3_price, cexMID4_team, cexMID4_price, cexMID5_team, cexMID5_price, cexFWD1_team, cexFWD1_price, cexFWD2_team, cexFWD2_price, cexFWD3_team, cexFWD3_price]

lemma cex_step8 : select_players [cexFWD3] 1 37 (bump (bump (bump (bump (bump (bump (bump (bump (bump (bump (bump (bump (bump (bump (fun _ => 0) "T2") "T1") "T1") "T1") "T1") "T2") "T3") "T4") "T5") "T4") "T5") "T3") "T1") "T6") = ([cexFWD3], bump (bump (bump (bump (bump (bump (bump (bump (bump (bump (bump (bump (bump (bump (bump (fun _ => 0) "T2") "T1") "T1") "T1") "T1") "T2") "T3") "T4") "T5") "T4") "T5") "T3") "T1") "T6") "T6") := by
  norm_num [select_players, select_greedy, select_repair, min_by_price, bump, squad_cost, ne_eq, List.cons_ne_nil, List.filter_cons, List.filter_nil, List.not_mem_nil, cex_ne_T1_T2, cex_ne_T1_T3, cex_ne_T1_T4, cex_ne_T1_T5, cex_ne_T1_T6, cex_ne_T2_T1, cex_ne_T2_T3, cex_ne_T2_T4, cex_ne_T2_T5, cex_ne_T2_T6, cex_ne_T3_T1, cex_ne_T3_T2, cex_ne_T3_T4, cex_ne_T3_T5, cex_ne_T3_T6, cex_ne_T4_T1, cex_ne_T4_T2, cex_ne_T4_T3, cex_ne_T4_T5, cex_ne_T4_T6, cex_ne_T5_T1, cex_ne_T5_T2, cex_ne_T5_T3, cex_ne_T5_T4, cex_ne_T5_T6, cex_ne_T6_T1, cex_ne_T6_T2, cex_ne_T6_T3, cex_ne_T6_T4, cex_ne_T6_T5, cexGK1_team, cexGK1_price, cexGK2_team, cexGK2_price, cexDEF1_team, cexDEF1_price, cexDEF2_team, cexDEF2_price, cexDEF3_team, cexDEF3_price, cexDEF4_team, cexDEF4_price, cexDEF5_team, cexDEF5_price, cexMID1_team, cexMID1_price, cexMID2_team, cexMID2_price, cexMID3_team, cexMID3_price, cexMID4_team, cexMID4_price, cexMID5_team, cexMID5_price, cexFWD1_team, cexFWD1_price, cexFWD2_team, cexFWD2_price, cexFWD3_team, cexFWD3_price]

/-- The starting-XI fill loop of the counterexample run. -/
lemma cex_fill_xi :
    fill_loop 100 (fun pos => sort_players (group_by_position cexPool pos)) formation 0 (fun _ => 0) [] =
      ([cexGK1, cexDEF1, cexDEF2, cexDEF3, cexDEF4, cexMID1, cexMID2, cexMID3, cexMID4, cexFWD1, cexFWD2], 50, bump (bump (bump (bump (bump (bump (bump (bump (bump (bump (bump (fun _ => 0) "T2") "T1") "T1") "T1") "T1") "T2") "T3") "T4") "T5") "T4") "T5") := by
  norm_num [fill_loop, formation, cex_group_gk, cex_group_def, cex_group_mid,
    cex_group_fwd, cex_sort_gk, cex_sort_def, cex_sort_mid, cex_sort_fwd,
    cex_step1, cex_step2, cex_step3, cex_step4, squad_cost, cexGK1_team, cexGK1_price, cexGK2_team, cexGK2_price, cexDEF1_team, cexDEF1_price, cexDEF2_team, cexDEF2_price, cexDEF3_team, cexDEF3_price, cexDEF4_team, cexDEF4_price, cexDEF5_team, cexDEF5_price, cexMID1_team, cexMID1_price, cexMID2_team, cexMID2_price, cexMID3_team, cexMID3_price, cexMID4_team, cexMID4_price, cexMID5_team, cexMID5_price, cexFWD1_team, cexFWD1_price, cexFWD2_team, cexFWD2_price, cexFWD3_team, cexFWD3_price]

/-- Position-string facts for evaluating `cexBenchPrep`. -/
lemma cex_ne_DEF_GK : ("DEF" = "GK") = False := by simp

lemma cex_ne_MID_GK : ("MID" = "GK") = False := by simp

lemma cex_ne_MID_DEF : ("MID" = "DEF") = False := by simp

lemma cex_ne_FWD_GK : ("FWD" = "GK") = False := by simp

lemma cex_ne_FWD_DEF : ("FWD" = "DEF") = False := by simp

lemma cex_ne_FWD_MID : ("FWD" = "MID") = False := by simp

/-- `fill_loop` only consults `prep` on the position keys of its list. -/
lemma fill_loop_congr (budget : ℚ) (prep1 prep2 : String → List StandardPlayer) :
    ∀ (l : List (String × Nat)), (∀ pc ∈ l, prep1 pc.1 = prep2 pc.1) →
      ∀ (total : ℚ) (used : String → Nat) (acc : List StandardPlayer),
        fill_loop budget prep1 l total used acc = fill_loop budget prep2 l total used acc
  | [], _, total, used, acc => rfl
  | (pos, count) :: rest, h, total, used, acc => by
    rw [fill_loop, fill_loop, h (pos, count) (List.mem_cons_self _ _)]
    exact fill_loop_congr budget prep1 prep2 rest
      (fun pc hpc => h pc (List.mem_cons_of_mem _ hpc)) _ _ _

/-- The candidates the bench loop of the counterexample run sees, with
the not-in-starting-XI filters already evaluated. -/
def cexBenchPrep : String → List StandardPlayer := fun pos =>
  if pos = "GK" then [cexGK2]
  else if pos = "DEF" then [cexDEF5]
  else if pos = "MID" then [cexMID5]
  else [cexFWD3]

/-- The bench fill loop of the counterexample run. -/
lemma cex_fill_bench :
    fill_loop 100 cexBenchPrep bench_formation 50 (bump (bump (bump (bump (bump (bump (bump (bump (bump (bump (bump (fun _ => 0) "T2") "T1") "T1") "T1") "T1") "T2") "T3") "T4") "T5") "T4") "T5") [] =
      ([cexGK2, cexDEF5, cexMID5, cexFWD3], 68, bump (bump (bump (bump (bump (bump (bump (bump (bump (bump (bump (bump (bump (bump (bump (fun _ => 0) "T2") "T1") "T1") "T1") "T1") "T2") "T3") "T4") "T5") "T4") "T5") "T3") "T1") "T6") "T6") := by
  norm_num [fill_loop, bench_formation, cexBenchPrep,
    cex_ne_DEF_GK, cex_ne_MID_GK, cex_ne_MID_DEF, cex_ne_FWD_GK, cex_ne_FWD_DEF,
    cex_ne_FWD_MID, cex_step5, cex_step6, cex_step7, cex_step8,
    squad_cost, cexGK1_team, cexGK1_price, cexGK2_team, cexGK2_price, cexDEF1_team, cexDEF1_price, cexDEF2_team, cexDEF2_price, cexDEF3_team, cexDEF3_price, cexDEF4_team, cexDEF4_price, cexDEF5_team, cexDEF5_price, cexMID1_team, cexMID1_price, cexMID2_team, cexMID2_price, cexMID3_team, cexMID3_price, cexMID4_team, cexMID4_price, cexMID5_team, cexMID5_price, cexFWD1_team, cexFWD1_price, cexFWD2_team, cexFWD2_price, cexFWD3_team, cexFWD3_price]

/-- The bench prep of the actual run agrees with `cexBenchPrep` on the
bench formation keys. -/
lemma cex_bench_prep_eq :
    ∀ pc ∈ bench_formation,
      (group_by_position cexPool pc.1).filter (fun p => decide (p ∉ [cexGK1, cexDEF1, cexDEF2, cexDEF3, cexDEF4, cexMID1, cexMID2, cexMID3, cexMID4, cexFWD1, cexFWD2])) =
        cexBenchPrep pc.1 := by
  intro pc hpc
  simp only [bench_formation, List.mem_cons, List.not_mem_nil, or_false] at hpc
  rcases hpc with h | h | h | h <;> subst h <;>
    simp only [cex_group_gk, cex_group_def, cex_group_mid, cex_group_fwd,
      cex_filter_bench_gk, cex_filter_bench_def, cex_filter_bench_mid,
      cex_filter_bench_fwd, cexBenchPrep] <;>
    simp

/-- The squad built from the counterexample pool: the repair pass put five
`T1` players in it. -/
lemma cex_squad_eval :
    (build_squad 100 cexPool).starting_xi ++ (build_squad 100 cexPool).bench =
      [cexGK1, cexDEF1, cexDEF2, cexDEF3, cexDEF4, cexMID1, cexMID2, cexMID3, cexMID4, cexFWD1, cexFWD2, cexGK2, cexDEF5, cexMID5, cexFWD3] := by
  have h1 : (build_squad 100 cexPool).starting_xi = (fill_loop 100 (fun pos => sort_players (group_by_position cexPool pos)) formation 0 (fun _ => 0) []).1 := rfl
  have h2 : (build_squad 100 cexPool).bench =
      (fill_loop 100
        (fun pos => (group_by_position cexPool pos).filter
          (fun p => decide (p ∉ (fill_loop 100 (fun pos => sort_players (group_by_position cexPool pos)) formation 0 (fun _ => 0) []).1)))
        bench_formation ((fill_loop 100 (fun pos => sort_players (group_by_position cexPool pos)) formation 0 (fun _ => 0) []).2.1) ((fill_loop 100 (fun pos => sort_players (group_by_position cexPool pos)) formation 0 (fun _ => 0) []).2.2) []).1 := rfl
  rw [h1, h2, cex_fill_xi]
  show ([cexGK1, cexDEF1, cexDEF2, cexDEF3, cexDEF4, cexMID1, cexMID2, cexMID3, cexMID4, cexFWD1, cexFWD2] : List StandardPlayer) ++
      (fill_loop 100
        (fun pos => (group_by_position cexPool pos).filter
          (fun p => decide (p ∉ [cexGK1, cexDEF1, cexDEF2, cexDEF3, cexDEF4, cexMID1, cexMID2, cexMID3, cexMID4, cexFWD1, cexFWD2])))
        bench_formation 50 (bump (bump (bump (bump (bump (bump (bump (bump (bump (bump (bump (fun _ => 0) "T2") "T1") "T1") "T1") "T1") "T2") "T3") "T4") "T5") "T4") "T5") []).1 = [cexGK1, cexDEF1, cexDEF2, cexDEF3, cexDEF4, cexMID1, cexMID2, cexMID3, cexMID4, cexFWD1, cexFWD2, cexGK2, cexDEF5, cexMID5, cexFWD3]
  rw [fill_loop_congr 100 _ cexBenchPrep bench_formation cex_bench_prep_eq 50 (bump (bump (bump (bump (bump (bump (bump (bump (bump (bump (bump (fun _ => 0) "T2") "T1") "T1") "T1") "T1") "T2") "T3") "T4") "T5") "T4") "T5") [],
    cex_fill_bench]
  rfl

/-- Counterexample to C1 as stated: `cexPool` satisfies every side
condition of the claim (at least 15 eligible players, all four positions
populated, six distinct teams), yet the squad built with budget 100
contains more than three players from team `T1` — the repair pass ignores
the team cap. -/
theorem claim_C1_counterexample :
    15 ≤ (cexPool.filter eligible).length ∧
    (cexPool.filter (fun p => decide (p.position = "GK") && eligible p)) ≠ [] ∧
    (cexPool.filter (fun p => decide (p.position = "DEF") && eligible p)) ≠ [] ∧
    (cexPool.filter (fun p => decide (p.position = "MID") && eligible p)) ≠ [] ∧
    (cexPool.filter (fun p => decide (p.position = "FWD") && eligible p)) ≠ [] ∧
    6 ≤ (cexPool.map StandardPlayer.team_name).dedup.length ∧
    3 < count_team ((build_squad 100 cexPool).starting_xi ++
      (build_squad 100 cexPool).bench) "T1" := by
  refine ⟨by decide, by decide, by decide, by decide, by decide, by decide, ?_⟩
  rw [cex_squad_eval]
  simp +decide [count_team, List.filter_cons, cexGK1_team, cexGK2_team, cexDEF1_team, cexDEF2_team, cexDEF3_team, cexDEF4_team, cexDEF5_team, cexMID1_team, cexMID2_team, cexMID3_team, cexMID4_team, cexMID5_team, cexFWD1_team, cexFWD2_team, cexFWD3_team]

/-- A one-player pool for the witness of the amended C1. -/
def poolC1W : List StandardPlayer := [cexGK1]

/-- Witness for the amended C1 at budget 100 and a concrete pool. -/
theorem claim_C1_amended_witness :
    squad_cost ((build_squad 100 poolC1W).starting_xi ++
      (build_squad 100 poolC1W).bench) ≤ 100 :=
  claim_C1_amended 100 poolC1W (by norm_num)

/-! ## Claim C9: the squad cache key ignores the players -/

/-- C9: the squad cache key depends only on the budget and the number of
input players; a second `build_squad` call on the same builder with a
different player list of the same length, within the cache TTL, returns
the squad computed from the first list. -/
theorem claim_C9 (budget : ℚ) (c : CentralCache SquadResult) (now1 now2 : ℚ)
    (ps1 ps2 : List StandardPlayer)
    (hlen : ps1.length = ps2.length)
    (hmiss : c.store (squad_cache_key budget ps1.length) = none)
    (hfresh : now2 - now1 < c.timeout) :
    (build_squad_cached budget (build_squad_cached budget c now1 ps1).2 now2 ps2).1 =
      build_squad budget ps1 := by
  unfold build_squad_cached
  rw [← hlen]
  simp only [CentralCache.get, hmiss, CentralCache.set]
  simp [hfresh]

/-- A player for the C9 witness lists. -/
def playerC9a : StandardPlayer := ⟨101, "a", "GK", "T1", 4, 0, 1, 0, 0, 0, 0, 0, 0, 100⟩

/-- A different player (the second list) for the C9 witness. -/
def playerC9b : StandardPlayer := ⟨102, "b", "FWD", "T2", 9, 50, 1, 0, 0, 0, 0, 0, 0, 100⟩

/-- An empty cache with the default 1800-second timeout. -/
def cacheC9 : CentralCache SquadResult := ⟨fun _ => none, 1800⟩

/-- Witness for C9: two different one-player lists, second call 10
seconds after the first, returns the first list's squad. -/
theorem claim_C9_witness :
    (build_squad_cached 100 (build_squad_cached 100 cacheC9 0 [playerC9a]).2 10
      [playerC9b]).1 = build_squad 100 [playerC9a] :=
  claim_C9 100 cacheC9 0 10 [playerC9a] [playerC9b] rfl rfl (by norm_num [cacheC9])

/-! ## Claim C8: repeated analysis of the same player -/

/-- The derived fields of an analysis result that are pure functions of
the player record (everything except the randomized `selected` flag and
the `selected`-dependent recommendation string). -/
def PureMatch (p : StandardPlayer) (r : AnalysisResult) : Prop :=
  r.momentum_level = get_momentum_level p.momentum_score ∧
  r.multi_objective_score = calculate_multi_objective_score p ∧
  r.captain_score = calculate_captain_score p ∧
  r.transfer_priority = calculate_transfer_priority p ∧
  r.ownership_category = get_ownership_category p.selected_by_percent ∧
  r.value_rating = calculate_value_rating p

/-- The cache is consistent for a player: whatever is stored under the
player's analysis key was derived from that player (which is how every
entry under that key is produced in the first place). -/
def CacheOK (p : StandardPlayer) (c : CentralCache AnalysisResult) : Prop :=
  ∀ ts r, c.store (player_analysis_key p) = some (ts, r) → PureMatch p r

lemma apply_randomizer_level (rng : Nat → ℚ) (idx : Nat) (p : StandardPlayer) :
    (apply_randomizer rng idx p).2.1 = get_momentum_level p.momentum_score := by
  unfold apply_randomizer
  cases h : randomizer_thresholds.find? (fun th => decide (th.1 ≤ p.momentum_score)) with
  | some th => rfl
  | none =>
    have h0 : ¬ (0 : ℚ) ≤ p.momentum_score := by
      have := List.find?_eq_none.mp h (0, 6/100) (by simp [randomizer_thresholds])
      simpa using this
    simp only []
    unfold get_momentum_level
    rw [if_neg, if_neg, if_neg, if_neg]
    all_goals intro hcon; exact h0 (le_trans (by norm_num) hcon)

lemma compute_analysis_pure (p : StandardPlayer) (sel : Bool) (level : String)
    (hl : level = get_momentum_level p.momentum_score) :
    PureMatch p (compute_analysis p sel level) := by
  simp [PureMatch, compute_analysis, hl]

/-- One `analyze_player` call on a consistent cache returns a result whose
pure fields are those of the player, and leaves an entry under the
player's key holding exactly the returned result. -/
lemma analyze_player_spec (rng : Nat → ℚ) (s : EngineState) (now : ℚ)
    (p : StandardPlayer) (hok : CacheOK p s.cache) :
    PureMatch p (analyze_player rng s now p).1 ∧
    (∃ t, (analyze_player rng s now p).2.cache.store (player_analysis_key p) =
      some (t, (analyze_player rng s now p).1)) := by
  unfold analyze_player CentralCache.get
  cases hst : s.cache.store (player_analysis_key p) with
  | none =>
    simp only [hst, CentralCache.set]
    refine ⟨compute_analysis_pure p _ _ (apply_randomizer_level rng s.rng_index p), now, ?_⟩
    simp
  | some tsr =>
    obtain ⟨ts, r⟩ := tsr
    by_cases hf : now - ts < s.cache.timeout
    · simp only [hst, hf, if_true, if_pos hf]
      exact ⟨hok ts r hst, ts, by simpa using hst⟩
    · simp only [hst, if_neg hf, CentralCache.set]
      refine ⟨compute_analysis_pure p _ _ (apply_randomizer_level rng s.rng_index p), now, ?_⟩
      simp

/-- C8: analyzing the same player twice, without mutating the player,
yields identical derived fields (momentum level, multi-objective score,
captain score, transfer priority, ownership category, value rating); the
randomized `selected` flag is itself reproducible: with the same seeded
stream and the same draw position, two cache-missing calls agree on it. -/
theorem claim_C8 (rng : Nat → ℚ) (s : EngineState) (now1 now2 : ℚ)
    (p : StandardPlayer) (hok : CacheOK p s.cache) :
    ((analyze_player rng (analyze_player rng s now1 p).2 now2 p).1.momentum_level =
        (analyze_player rng s now1 p).1.momentum_level ∧
      (analyze_player rng (analyze_player rng s now1 p).2 now2 p).1.multi_objective_score =
        (analyze_player rng s now1 p).1.multi_objective_score ∧
      (analyze_player rng (analyze_player rng s now1 p).2 now2 p).1.captain_score =
        (analyze_player rng s now1 p).1.captain_score ∧
      (analyze_player rng (analyze_player rng s now1 p).2 now2 p).1.transfer_priority =
        (analyze_player rng s now1 p).1.transfer_priority ∧
      (analyze_player rng (analyze_player rng s now1 p).2 now2 p).1.ownership_category =
        (analyze_player rng s now1 p).1.ownership_category ∧
      (analyze_player rng (analyze_player rng s now1 p).2 now2 p).1.value_rating =
        (analyze_player rng s now1 p).1.value_rating) ∧
    (∀ (s' : EngineState) (now' : ℚ), s'.rng_index = s.rng_index →
      s.cache.store (player_analysis_key p) = none →
      s'.cache.store (player_analysis_key p) = none →
      (analyze_player rng s' now' p).1.selected =
        (analyze_player rng s now1 p).1.selected) := by
  constructor
  · obtain ⟨hp1, t1, hstore1⟩ := analyze_player_spec rng s now1 p hok
    have hok1 : CacheOK p (analyze_player rng s now1 p).2.cache := by
      intro ts r h
      rw [hstore1] at h
      obtain ⟨-, h2⟩ := Prod.mk.injEq .. ▸ (Option.some.inj h)
      exact h2 ▸ hp1
    obtain ⟨hp2, -⟩ := analyze_player_spec rng (analyze_player rng s now1 p).2 now2 p hok1
    obtain ⟨a1, a2, a3, a4, a5, a6⟩ := hp1
    obtain ⟨b1, b2, b3, b4, b5, b6⟩ := hp2
    exact ⟨b1.trans a1.symm, b2.trans a2.symm, b3.trans a3.symm,
      b4.trans a4.symm, b5.trans a5.symm, b6.trans a6.symm⟩
  · intro s' now' hidx hn hn'
    unfold analyze_player CentralCache.get
    simp only [hn, hn', hidx]

/-- A fixed concrete pseudorandom stream for the C8 witness. -/
def rngC8 : Nat → ℚ := fun _ => 1/2

/-- A fresh engine state (empty cache, stream position 0). -/
def engineC8 : EngineState := ⟨⟨fun _ => none, 1800⟩, 0⟩

/-- A concrete midfielder for the C8 witness. -/
def playerC8 : StandardPlayer := ⟨201, "w", "MID", "T1", 5, 50, 8/10, 90, 5, 10, 0, 0, 0, 100⟩

/-- Witness for C8: the momentum level of the second analysis of the same
player equals the first one's. -/
theorem claim_C8_witness :
    (analyze_player rngC8 (analyze_player rngC8 engineC8 0 playerC8).2 1 playerC8).1.momentum_level =
      (analyze_player rngC8 engineC8 0 playerC8).1.momentum_level :=
  (claim_C8 rngC8 engineC8 0 1 playerC8 (by intro ts r h; simp [engineC8] at h)).1.1

/-! ## Claim C10: value picks test only the last affordable player -/

lemma analyze_loop_isSome (rng : Nat → ℚ) (now : ℚ) (l : List StandardPlayer)
    (s : EngineState) (h : l ≠ []) : ((analyze_loop rng now l s).1).isSome := by
  cases l with
  | nil => exact absurd rfl h
  | cons p ps => simp [analyze_loop]

/-- C10: with at least one affordable player, `get_value_picks` returns a
list (rather than hitting the unbound-variable error) of at most one
entry, and any entry it contains is the analysis bound by the final loop
iteration — the last affordable player; earlier affordable players are
never tested against the 0.7 value-rating threshold. -/
theorem claim_C10 (rng : Nat → ℚ) (s : EngineState) (now : ℚ)
    (players : List StandardPlayer) (max_price : ℚ)
    (h : players.filter (fun p => decide (p.price ≤ max_price)) ≠ []) :
    ((get_value_picks rng s now players max_price).1).isSome ∧
    (∀ picks, (get_value_picks rng s now players max_price).1 = some picks →
      picks.length ≤ 1 ∧
      ∀ a ∈ picks,
        (analyze_loop rng now (players.filter (fun p => decide (p.price ≤ max_price))) s).1 =
          some a) := by
  have hsome := analyze_loop_isSome rng now
    (players.filter (fun p => decide (p.price ≤ max_price))) s h
  obtain ⟨analysis, hana⟩ := Option.isSome_iff_exists.mp hsome
  unfold get_value_picks
  simp only [hana, Option.isSome_some, true_and]
  intro picks hpicks
  by_cases hvr : (7:ℚ)/10 ≤ analysis.value_rating
  · rw [if_pos hvr] at hpicks
    have hsingle : (List.insertionSort
        (fun a b => b.value_rating ≤ a.value_rating) [analysis]).take 10 = [analysis] := rfl
    rw [hsingle] at hpicks
    obtain rfl := Option.some.inj hpicks
    exact ⟨by simp, fun a ha => by rw [List.mem_singleton.mp ha]⟩
  · rw [if_neg hvr] at hpicks
    obtain rfl := Option.some.inj hpicks
    exact ⟨by simp, fun a ha => by simp at ha⟩

/-- Affordable player with a high value rating, iterated first. -/
def playerC10a : StandardPlayer := ⟨301, "va", "MID", "T1", 5, 300, 9/10, 90, 5, 10, 0, 0, 0, 100⟩

/-- Affordable player with a zero value rating, iterated last. -/
def playerC10b : StandardPlayer := ⟨302, "vb", "MID", "T2", 5, 0, 0, 0, 0, 0, 0, 0, 0, 100⟩

/-- Witness for C10 on a two-player list (both under the price cap). -/
theorem claim_C10_witness :
    ((get_value_picks rngC8 engineC8 0 [playerC10a, playerC10b] 7).1).isSome ∧
    (∀ picks, (get_value_picks rngC8 engineC8 0 [playerC10a, playerC10b] 7).1 = some picks →
      picks.length ≤ 1 ∧
      ∀ a ∈ picks,
        (analyze_loop rngC8 0
          ([playerC10a, playerC10b].filter (fun p => decide (p.price ≤ 7))) engineC8).1 =
          some a) :=
  claim_C10 rngC8 engineC8 0 [playerC10a, playerC10b] 7
    (by norm_num [playerC10a, playerC10b, List.filter_cons, ne_eq, List.cons_ne_nil])
